import Mathlib

/-!
Verification of the multi-stream event correlation and scoring engine of the
codeblast repository (two Python source trees:
`submission-structure/Team01_sentinel/src` — namespace `Sentinel` below — and
`AgentX/TeamGmora_AgentX/src` — namespace `AgentX` below).

Modelling conventions (shallow embedding):
* Python floats are modelled as `ℚ`; `round(x, 1)` / `round(x, 2)` are modelled
  as `round1` / `round2` (round half up; Python's float `round` is half-even on
  binary floats, but no statement in this development sits on a tie).
* ISO-8601 timestamps are modelled as `Int` (seconds since an arbitrary epoch);
  `datetime.fromisoformat` on a well-formed canonical timestamp string is the
  identity under this model, string equality of canonical timestamps coincides
  with instant equality, and `timedelta(seconds = k)` is `+ k`.
* A stream record is a `Rec α`: `timestamp` and `station_id` are always present
  (the record normalizer guarantees them), `status` and every payload field is
  an `Option`, mirroring `dict.get`.  Direct subscripting `d['k']` is `getD`,
  which raises `KeyError` in the `Except String` monad exactly as Python does;
  `d.get('k')` is plain `Option` access.
* `math.log` (a transcendental on floats) is passed in as an explicit function
  parameter `log : ℚ → ℚ` wherever the source calls it.
* `datetime.now()` (a hidden input of `detect_inventory_discrepancies` in the
  Sentinel tree) is passed in as an explicit parameter `now : Int`.
* Detected events are modelled by `Event`, keeping exactly the fields the
  specification's claims are about (timestamp, type, station, customer, SKUs,
  inventory counts, difference percent, risk score, severity); the remaining
  output fields (evidence blobs, confidence, reason strings, …) are not read
  by any claim and are omitted.
* Severity strings 'LOW'/'MEDIUM'/'HIGH'/'CRITICAL' are the inductive `Sev`.
-/

set_option maxRecDepth 40000

namespace CodeBlast

/-- Severity tiers appearing in the source ('CRITICAL' only in the AgentX tree). -/
inductive Sev where
  | LOW : Sev
  | MEDIUM : Sev
  | HIGH : Sev
  | CRITICAL : Sev
deriving DecidableEq, Repr

/-- Ordinal rank of a severity tier: LOW < MEDIUM < HIGH < CRITICAL. -/
def Sev.rank : Sev → Nat
  | .LOW => 0
  | .MEDIUM => 1
  | .HIGH => 2
  | .CRITICAL => 3

/-- Python `round(x, 1)` (modelled as round half up on ℚ). -/
def round1 (x : ℚ) : ℚ := ((Rat.floor (x * 10 + 1/2) : ℤ) : ℚ) / 10

/-- Python `round(x, 2)` (modelled as round half up on ℚ). -/
def round2 (x : ℚ) : ℚ := ((Rat.floor (x * 100 + 1/2) : ℤ) : ℚ) / 100

/-- A normalized stream record: timestamp (seconds), station id, optional
`status` flag, and a source-kind-specific payload. -/
structure Rec (α : Type) where
  timestamp : Int
  station_id : String
  status : Option String := none
  data : α
deriving DecidableEq, Repr

/-- POS transaction payload (`pos['data']`); every key may be absent. -/
structure PosData where
  sku : Option String := none
  weight_g : Option ℚ := none
  customer_id : Option String := none
deriving DecidableEq, Repr

/-- RFID reading payload (`rfid['data']`). -/
structure RfidData where
  sku : Option String := none
  location : Option String := none
deriving DecidableEq, Repr

/-- Vision product-recognition payload (`recognition['data']`). -/
structure RecogData where
  predicted_product : Option String := none
  accuracy : Option ℚ := none
deriving DecidableEq, Repr

/-- Queue-monitoring payload (`queue['data']`). -/
structure QueueData where
  customer_count : Option ℚ := none
  average_dwell_time : Option ℚ := none
deriving DecidableEq, Repr

/-- Catalog entry for one SKU (the fields the engine reads; the loaders always
populate `weight` and `price` as floats). -/
structure Product where
  weight : ℚ
  price : ℚ
deriving DecidableEq, Repr

/-- Detected Event (the claim-relevant projection of the output dict). -/
structure Event where
  timestamp : Int
  etype : String
  station_id : Option String := none
  customer_id : Option String := none
  sku : Option String := none
  actual_sku : Option String := none
  scanned_sku : Option String := none
  expected_inventory : Option Int := none
  actual_inventory : Option Int := none
  difference_percent : Option ℚ := none
  risk_score : ℚ
  severity : Sev
deriving DecidableEq, Repr

/-- Python `d[k]` on an optional field: `KeyError` when the key is absent. -/
def getD (o : Option α) (k : String) : Except String α :=
  match o with
  | some v => Except.ok v
  | none => Except.error ("KeyError: " ++ k)

/-- The list of events of an `Except`-valued rule result, `[]` on an error. -/
def okE (r : Except String (List Event)) : List Event :=
  match r with
  | .ok l => l
  | .error _ => []

/-- Catalog lookup `products_catalog.get(sku)` (dict keyed by SKU). -/
def lookupP (catalog : List (String × Product)) (s : String) : Option Product :=
  (catalog.find? (fun kv => kv.1 = s)).map (fun kv => kv.2)

/-- Effectful filter-map over a list: the shape of every per-record Python
detection loop (`for x in l: ... detected_events.append(ev)`), where handling
one record can raise.  An exception thrown at any record discards the whole
result, exactly as an uncaught Python exception does. -/
def exceptFilterMap (f : α → Except String (Option β)) : List α → Except String (List β)
  | [] => .ok []
  | x :: xs =>
      match f x with
      | .error e => .error e
      | .ok o =>
          match exceptFilterMap f xs with
          | .error e => .error e
          | .ok rest =>
              match o with
              | some b => .ok (b :: rest)
              | none => .ok rest

/-- Keys of a Python dict in first-insertion order (`defaultdict` grouping):
each element once, ordered by first occurrence (the head, then the later first
occurrences with the head's duplicates removed). -/
def dedupFirst [DecidableEq α] : List α → List α
  | [] => []
  | x :: xs => x :: (dedupFirst xs).filter (fun y => y ≠ x)

/-- `Counter(l).most_common(1)`: value with the highest count, ties broken by
first occurrence (Python's `Counter` keeps insertion order and `sorted` is
stable). -/
def mostCommon (l : List String) : Option String :=
  (dedupFirst l).foldl
    (fun best s =>
      match best with
      | none => some s
      | some b => if (l.count s) > (l.count b) then some s else some b)
    none

/-- Stable insertion of `x` into a list sorted by `key` (insert after equal
keys, so the overall sort is stable like Python's `sorted`). -/
def insSorted (key : α → Int) (x : α) : List α → List α
  | [] => [x]
  | y :: ys => if key y ≤ key x then y :: insSorted key x ys else x :: y :: ys

/-- Stable sort by an integer key (Python `sorted(l, key = ...)`). -/
def sortByKey (key : α → Int) : List α → List α
  | [] => []
  | x :: xs => insSorted key x (sortByKey key xs)

/-- Effectful map over a list (a Python comprehension whose body can raise). -/
def exceptMapM (f : α → Except String β) : List α → Except String (List β)
  | [] => .ok []
  | x :: xs =>
      match f x with
      | .error e => .error e
      | .ok b =>
          match exceptMapM f xs with
          | .error e => .error e
          | .ok rest => .ok (b :: rest)

/-- Effectful filter over a list (a Python comprehension with a condition that
can raise). -/
def exceptFilter (f : α → Except String Bool) : List α → Except String (List α)
  | [] => .ok []
  | x :: xs =>
      match f x with
      | .error e => .error e
      | .ok b =>
          match exceptFilter f xs with
          | .error e => .error e
          | .ok rest => .ok (if b then x :: rest else rest)

/-- Python dict built by repeated `index[key] = x` (later writes win), read
through lookups only: modelled as the lookup function itself. -/
def buildIndex {α κ : Type} [DecidableEq κ] (key : α → κ) (l : List α) : κ → Option α :=
  l.foldl (fun f x => fun k => if k = key x then some x else f k)
    ((fun _ => none) : κ → Option α)

/-- `range(-time_window, time_window + 1)`: the candidate offsets of the
windowed joins, in increasing signed order (empty when `W < 0`).  Both source
trees use this same loop. -/
def offsetRange (W : Int) : List Int :=
  (List.range (2 * W + 1).toNat).map (fun i : Nat => -W + (i : Int))

/-!
## The Sentinel tree (`submission-structure/Team01_sentinel/src/algorithms.py`)
-/

namespace Sentinel

/-- `FraudDetectionAlgorithms._classify_severity` (breakpoints 85 / 60). -/
def classify_severity_fraud (score : ℚ) : Sev :=
  if score ≥ 85 then .HIGH else if score ≥ 60 then .MEDIUM else .LOW

/-- `OperationalAlgorithms._classify_severity` (breakpoints 80 / 55). -/
def classify_severity_ops (score : ℚ) : Sev :=
  if score ≥ 80 then .HIGH else if score ≥ 55 then .MEDIUM else .LOW

/-- `InventoryAlgorithms._classify_severity` (breakpoints 80 / 55, textually
identical to the operational variant but a distinct method in the source). -/
def classify_severity_inv (score : ℚ) : Sev :=
  if score ≥ 80 then .HIGH else if score ≥ 55 then .MEDIUM else .LOW

/-- `pos_by_time[t]`: the POS records whose parsed timestamp equals `t`, in
input order (`defaultdict(list)` grouping); `[]` when the key is absent. -/
def posAt (pos : List (Rec PosData)) (t : Int) : List (Rec PosData) :=
  pos.filter (fun p => p.timestamp == t)

/-- The inner loop over one time bucket of `detect_scanner_avoidance`:
`pos['data']['sku'] == rfid_sku and pos['station_id'] == station`, with the
Python `KeyError` when a probed POS record has no `sku`. -/
def scanBucket (station sku : String) : List (Rec PosData) → Except String Bool
  | [] => .ok false
  | p :: ps =>
      match getD p.data.sku "sku" with
      | .error e => .error e
      | .ok psku =>
          if psku = sku ∧ p.station_id = station then .ok true
          else scanBucket station sku ps

/-- The offset scan of `detect_scanner_avoidance`: try the offsets in order and
return the offset at which the loop sets `found_in_pos` and breaks (`none` when
no offset in the window matches). -/
def scanOffsets (pos : List (Rec PosData)) (t : Int) (station sku : String) :
    List Int → Except String (Option Int)
  | [] => .ok none
  | off :: rest =>
      match scanBucket station sku (posAt pos (t + off)) with
      | .error e => .error e
      | .ok b => if b then .ok (some off) else scanOffsets pos t station sku rest

/-- The windowed join of `detect_scanner_avoidance` for one RFID event. -/
def scanWindow (pos : List (Rec PosData)) (t : Int) (station sku : String) (W : Int) :
    Except String (Option Int) :=
  scanOffsets pos t station sku (offsetRange W)

/-- Total match predicate for one candidate offset (statement-side only): some
POS record at `t + off` has this station and sku.  The loop in the source
reports found at the first offset where this holds, provided no earlier probed
record lacks a `sku`. -/
def matchesAt (pos : List (Rec PosData)) (t : Int) (station sku : String) (off : Int) : Bool :=
  (posAt pos (t + off)).any (fun p => p.data.sku == some sku && p.station_id == station)

/-- Body of the `for rfid in rfid_events` loop of `detect_scanner_avoidance`. -/
def scanner_step (pos : List (Rec PosData)) (W : Int) (catalog : List (String × Product))
    (r : Rec RfidData) : Except String (Option Event) :=
  match r.data.sku with
  | none => .ok none
  | some s =>
      if s = "" ∨ r.data.location ≠ some "IN_SCAN_AREA" then .ok none
      else
        match scanWindow pos r.timestamp r.station_id s W with
        | .error e => .error e
        | .ok (some _) => .ok none
        | .ok none =>
            let price_factor : ℚ :=
              match lookupP catalog s with
              | none => 0
              | some prod => if prod.price = 0 then 0 else min (prod.price / 30) 20
            let risk := min (75 + price_factor + 5) 100
            .ok (some { timestamp := r.timestamp, etype := "SCANNER_AVOIDANCE",
                        station_id := some r.station_id, sku := some s,
                        risk_score := round1 risk,
                        severity := classify_severity_fraud risk })

/-- `FraudDetectionAlgorithms.detect_scanner_avoidance`. -/
def detect_scanner_avoidance (rfid : List (Rec RfidData)) (pos : List (Rec PosData))
    (W : Int) (catalog : List (String × Product)) : Except String (List Event) :=
  exceptFilterMap (scanner_step pos W catalog) rfid

/-- Key `(pos['timestamp'], pos['station_id'])` of the POS index used by
`detect_barcode_switching`. -/
def posKey (p : Rec PosData) : Int × String := (p.timestamp, p.station_id)

/-- Body of the `for recognition in product_recognition` loop of
`detect_barcode_switching`. -/
def barcode_step (posIndex : Int × String → Option (Rec PosData)) (thr : ℚ)
    (catalog : List (String × Product)) (recog : Rec RecogData) :
    Except String (Option Event) :=
  match getD recog.data.accuracy "accuracy" with
  | .error e => .error e
  | .ok conf =>
      if conf ≥ thr then
        match getD recog.data.predicted_product "predicted_product" with
        | .error e => .error e
        | .ok pred =>
            match posIndex (recog.timestamp, recog.station_id) with
            | none => .ok none
            | some pos =>
                match getD pos.data.sku "sku" with
                | .error e => .error e
                | .ok scanned =>
                    if pred ≠ scanned then
                      let predicted_price := (lookupP catalog pred).map (fun pr => pr.price)
                      let scanned_price := (lookupP catalog scanned).map (fun pr => pr.price)
                      let price_gap : ℚ :=
                        match predicted_price, scanned_price with
                        | some pp, some sp => max (pp - sp) 0
                        | _, _ => 0
                      let confidence_boost := (conf - thr) * 30
                      let price_gap_factor := if price_gap > 0 then min (price_gap / 5) 25 else 0
                      let risk := min (70 + confidence_boost + price_gap_factor) 100
                      match getD pos.data.customer_id "customer_id" with
                      | .error e => .error e
                      | .ok cid =>
                          .ok (some { timestamp := recog.timestamp, etype := "BARCODE_SWITCHING",
                                      station_id := some recog.station_id, customer_id := some cid,
                                      actual_sku := some pred, scanned_sku := some scanned,
                                      risk_score := round1 risk,
                                      severity := classify_severity_fraud risk })
                    else .ok none
      else .ok none

/-- `FraudDetectionAlgorithms.detect_barcode_switching`. -/
def detect_barcode_switching (recogs : List (Rec RecogData)) (pos : List (Rec PosData))
    (thr : ℚ) (catalog : List (String × Product)) : Except String (List Event) :=
  exceptFilterMap (barcode_step (buildIndex posKey pos) thr catalog) recogs

/-- Body of the `for pos in pos_events` loop of `detect_weight_discrepancies`;
`log` stands for `math.log`. -/
def weight_step (catalog : List (String × Product)) (tol : ℚ) (log : ℚ → ℚ)
    (p : Rec PosData) : Except String (Option Event) :=
  match getD p.data.sku "sku" with
  | .error e => .error e
  | .ok sku =>
      match getD p.data.weight_g "weight_g" with
      | .error e => .error e
      | .ok actual =>
          match lookupP catalog sku with
          | none => .ok none
          | some prod =>
              if prod.weight = 0 then .error "ZeroDivisionError: float division by zero"
              else
                let dp := |actual - prod.weight| / prod.weight * 100
                if dp > tol then
                  let weight_factor := min (log (dp + 1) * 15) 35
                  let price_risk := if prod.price = 0 then 0 else min (prod.price / 40) 15
                  let risk := min (55 + weight_factor + price_risk) 100
                  match getD p.data.customer_id "customer_id" with
                  | .error e => .error e
                  | .ok cid =>
                      .ok (some { timestamp := p.timestamp, etype := "WEIGHT_DISCREPANCY",
                                  station_id := some p.station_id, customer_id := some cid,
                                  sku := some sku, difference_percent := some (round2 dp),
                                  risk_score := round1 risk,
                                  severity := classify_severity_fraud risk })
                else .ok none

/-- `FraudDetectionAlgorithms.detect_weight_discrepancies`. -/
def detect_weight_discrepancies (pos : List (Rec PosData))
    (catalog : List (String × Product)) (tol : ℚ) (log : ℚ → ℚ) :
    Except String (List Event) :=
  exceptFilterMap (weight_step catalog tol log) pos

/-- Truthy customer id of a detected event (`if not customer_id: continue`). -/
def customerKey (e : Event) : Option String :=
  match e.customer_id with
  | none => none
  | some c => if c = "" then none else some c

/-- `customer_events[customer_id]`: this customer's fraud events in input
order. -/
def customerEvents (events : List Event) (c : String) : List Event :=
  events.filter (fun e => e.customer_id == some c)

/-- The events of customer `c` whose score is within 10 points of the minimum
threshold (`risk_score >= min_score - 10`). -/
def qualifiedFor (events : List Event) (min_score : ℚ) (c : String) : List Event :=
  (customerEvents events c).filter (fun e => decide (e.risk_score ≥ min_score - 10))

/-- Body of the per-customer loop of `detect_high_risk_customers`.  With
`min_events = 0` and no qualifying event Python raises `ZeroDivisionError`
computing the average of an empty list; that branch is modelled as the
corresponding error. -/
def high_risk_step (events : List Event) (min_events : Nat) (min_score : ℚ)
    (c : String) : Except String (Option Event) :=
  let q := qualifiedFor events min_score c
  if q.length < min_events then .ok none
  else
    match q.getLast? with
    | none => .error "ZeroDivisionError: division by zero"
    | some lastQ =>
        let avg := (q.map (fun e => e.risk_score)).sum / (q.length : ℚ)
        let compounded := min (avg + ((q.length : ℚ) - (min_events : ℚ) + 1) * 5) 100
        let stations := q.filterMap (fun e =>
          match e.station_id with
          | none => none
          | some s => if s = "" then none else some s)
        .ok (some { timestamp := lastQ.timestamp, etype := "HIGH_RISK_CUSTOMER",
                    customer_id := some c, station_id := mostCommon stations,
                    risk_score := round1 compounded,
                    severity := classify_severity_fraud compounded })

/-- `FraudDetectionAlgorithms.detect_high_risk_customers` (grouping by truthy
customer id in first-occurrence order, as a Python `defaultdict` iterates). -/
def detect_high_risk_customers (events : List Event) (min_events : Nat)
    (min_score : ℚ) : Except String (List Event) :=
  exceptFilterMap (high_risk_step events min_events min_score)
    (dedupFirst (events.filterMap customerKey))

/-- Body of the `for queue in queue_events` loop of `detect_long_queue`. -/
def long_queue_step (thr : ℚ) (q : Rec QueueData) : Except String (Option Event) :=
  match getD q.data.customer_count "customer_count" with
  | .error e => .error e
  | .ok cc =>
      if cc > thr then
        let risk := min (48 + max (cc - thr) 0 * 8) 92
        .ok (some { timestamp := q.timestamp, etype := "LONG_QUEUE",
                    station_id := some q.station_id, risk_score := round1 risk,
                    severity := classify_severity_ops risk })
      else .ok none

/-- `OperationalAlgorithms.detect_long_queue`. -/
def detect_long_queue (queue : List (Rec QueueData)) (thr : ℚ) :
    Except String (List Event) :=
  exceptFilterMap (long_queue_step thr) queue

/-- Body of the `for queue in queue_events` loop of `detect_long_wait_time`
(`customer_count` is read with `.get(..., 0)`, `average_dwell_time` by direct
subscript). -/
def long_wait_step (thr : ℚ) (q : Rec QueueData) : Except String (Option Event) :=
  match getD q.data.average_dwell_time "average_dwell_time" with
  | .error e => .error e
  | .ok dwell =>
      let cc := q.data.customer_count.getD 0
      if dwell > thr then
        let overage := dwell - thr
        let time_risk := min (overage / 60 * 15) 35
        let customer_risk := min (cc * 3) 15
        let risk := min (45 + time_risk + customer_risk) 90
        .ok (some { timestamp := q.timestamp, etype := "LONG_WAIT",
                    station_id := some q.station_id, risk_score := round1 risk,
                    severity := classify_severity_ops risk })
      else .ok none

/-- `OperationalAlgorithms.detect_long_wait_time`. -/
def detect_long_wait_time (queue : List (Rec QueueData)) (thr : ℚ) :
    Except String (List Event) :=
  exceptFilterMap (long_wait_step thr) queue

/-- Body of the `for queue in queue_events` loop of `recommend_staffing`. -/
def staffing_step (ct wt : ℚ) (q : Rec QueueData) : Except String (Option Event) :=
  match getD q.data.customer_count "customer_count" with
  | .error e => .error e
  | .ok cc =>
      match getD q.data.average_dwell_time "average_dwell_time" with
      | .error e => .error e
      | .ok dwell =>
          if (cc > ct ∧ dwell > wt) ∨ cc > ct * 1.5 then
            let risk0 := 58 + max (cc - ct) 0 * 4
            let risk1 := if dwell > wt then risk0 + min ((dwell - wt) / 60 * 5) 20 else risk0
            let risk := min risk1 96
            .ok (some { timestamp := q.timestamp, etype := "STAFFING_NEEDS",
                        station_id := some q.station_id, risk_score := round1 risk,
                        severity := classify_severity_ops risk })
          else .ok none

/-- `OperationalAlgorithms.recommend_staffing`. -/
def recommend_staffing (queue : List (Rec QueueData)) (ct wt : ℚ) :
    Except String (List Event) :=
  exceptFilterMap (staffing_step ct wt) queue

/-- `e.get('status') in ['System Crash', 'Read Error']`. -/
def isCrashStatus (st : Option String) : Bool :=
  st == some "System Crash" || st == some "Read Error"

/-- One element of `all_sources`: a faulty-status record tagged with its
source-stream name. -/
structure CrashTagged where
  timestamp : Int
  station_id : String
  source : String
deriving DecidableEq, Repr

/-- Filter one stream for faulty statuses and tag it with its source name. -/
def tagCrash {α : Type} (source : String) (l : List (Rec α)) : List CrashTagged :=
  (l.filter (fun e => isCrashStatus e.status)).map
    (fun e => { timestamp := e.timestamp, station_id := e.station_id, source := source })

/-- One crash session: `start`, `end` (here `stop`; `end` is a Lean keyword)
and `count`. -/
structure CrashSession where
  start : Int
  stop : Int
  count : Nat
deriving DecidableEq, Repr

/-- One step of the session-building loop of `detect_system_crashes`: start a
session at the key's first occurrence (keys keep first-insertion order, as a
Python dict does), extend it otherwise. -/
def updateSessions (m : List ((String × String) × CrashSession))
    (k : String × String) (ts : Int) : List ((String × String) × CrashSession) :=
  if m.any (fun kv => kv.1 == k) then
    m.map (fun kv =>
      if kv.1 == k then (kv.1, { start := kv.2.start, stop := ts, count := kv.2.count + 1 })
      else kv)
  else m ++ [(k, { start := ts, stop := ts, count := 1 })]

/-- `OperationalAlgorithms.detect_system_crashes`: combine the four streams'
faulty-status records in argument order, stable-sort by timestamp, coalesce
into sessions keyed `(station_id, source)`, and emit one event per session. -/
def detect_system_crashes (pos : List (Rec PosData)) (recog : List (Rec RecogData))
    (rfid : List (Rec RfidData)) (queue : List (Rec QueueData)) : List Event :=
  let all := tagCrash "POS" pos ++ tagCrash "Product Recognition" recog ++
             tagCrash "RFID" rfid ++ tagCrash "Queue Monitor" queue
  let sorted := sortByKey (fun e => e.timestamp) all
  let sessions := sorted.foldl
    (fun m e => updateSessions m (e.station_id, e.source) e.timestamp) []
  sessions.map (fun kv =>
    let duration : ℚ := ((kv.2.stop - kv.2.start : Int) : ℚ)
    let risk := min (75 + min ((kv.2.count : ℚ) * 2) 20 + min (duration / 10) 5) 100
    { timestamp := kv.2.start, etype := "SYSTEM_CRASH", station_id := some kv.1.1,
      risk_score := round1 risk, severity := classify_severity_ops risk })

/-- The membership test of the `pressure_samples` comprehension of
`detect_station_pressure`; `or` short-circuits, so `average_dwell_time` is not
read when the count already breaches. -/
def pressureSample (qt wt : ℚ) (e : Rec QueueData) : Except String Bool :=
  match getD e.data.customer_count "customer_count" with
  | .error msg => .error msg
  | .ok cc =>
      if cc > qt then .ok true
      else
        match getD e.data.average_dwell_time "average_dwell_time" with
        | .error msg => .error msg
        | .ok dwell => .ok (dwell > wt)

/-- Body of the per-station loop of `detect_station_pressure`. -/
def station_step (queue : List (Rec QueueData)) (qt wt : ℚ) (occ : Nat) (wm : Int)
    (sid : String) : Except String (Option Event) :=
  let events_sorted := sortByKey (fun e => e.timestamp)
    (queue.filter (fun e => e.station_id == sid))
  match exceptFilter (pressureSample qt wt) events_sorted with
  | .error e => .error e
  | .ok pressure0 =>
      let pressure :=
        if wm ≠ 0 then
          match events_sorted.getLast? with
          | none => pressure0
          | some lastE => pressure0.filter (fun s => lastE.timestamp - s.timestamp ≤ wm * 60)
        else pressure0
      if pressure.length < occ then .ok none
      else
        match pressure with
        | [] => .error "ValueError: max() arg is an empty sequence"
        | p0 :: ps =>
            match exceptMapM (fun e => getD e.data.customer_count "customer_count") (p0 :: ps) with
            | .error e => .error e
            | .ok ccs =>
                match exceptMapM (fun e => getD e.data.average_dwell_time "average_dwell_time") (p0 :: ps) with
                | .error e => .error e
                | .ok dwells =>
                    let max_queue := ccs.foldl max (ccs.headD 0)
                    let max_wait := dwells.foldl max (dwells.headD 0)
                    let risk := min (60 + (max_queue - qt) * 7 + max 0 ((max_wait - wt) / 60 * 6)) 100
                    .ok (some { timestamp := (ps.getLastD p0).timestamp,
                                etype := "STATION_PERFORMANCE_ALERT", station_id := some sid,
                                risk_score := round1 risk, severity := classify_severity_ops risk })

/-- `OperationalAlgorithms.detect_station_pressure` (stations grouped by
`defaultdict`, so handled in first-occurrence order). -/
def detect_station_pressure (queue : List (Rec QueueData)) (qt wt : ℚ)
    (occ : Nat) (wm : Int) : Except String (List Event) :=
  exceptFilterMap (station_step queue qt wt occ wm)
    (dedupFirst (queue.map (fun e => e.station_id)))

/-- The POS replay loop of `detect_inventory_discrepancies`: decrement the
snapshot count of each sale's SKU when the SKU is a snapshot key. -/
def adjustExpected (inv : List (String × Int)) :
    List (Rec PosData) → Except String (List (String × Int))
  | [] => .ok inv
  | p :: ps =>
      match getD p.data.sku "sku" with
      | .error e => .error e
      | .ok s =>
          adjustExpected
            (if inv.any (fun kv => kv.1 == s) then
              inv.map (fun kv => if kv.1 == s then (kv.1, kv.2 - 1) else kv)
            else inv) ps

/-- The RFID tally loop of `detect_inventory_discrepancies`
(`rfid_inventory` is a `defaultdict(int)`, read back only through
`.get(sku, 0)`: modelled as the count function). -/
def tallyRfid (acc : String → Int) : List (Rec RfidData) → Except String (String → Int)
  | [] => .ok acc
  | r :: rs =>
      match getD r.data.sku "sku" with
      | .error e => .error e
      | .ok s =>
          match getD r.data.location "location" with
          | .error e => .error e
          | .ok loc =>
              tallyRfid
                (if loc = "IN_SCAN_AREA" ∨ loc = "SHELF" then
                  (fun x => if x = s then acc x + 1 else acc x)
                else acc) rs

/-- The comparison step of `detect_inventory_discrepancies` for one adjusted
snapshot entry; `now` models `datetime.now().isoformat()`, the wall-clock
timestamp stamped on every emitted discrepancy. -/
def inv_emit (tally : String → Int) (thr : ℚ) (now : Int) (kv : String × Int) :
    Option Event :=
  let actual := tally kv.1
  if 0 < kv.2 then
    let dp : ℚ := ((|actual - kv.2| : Int) : ℚ) / ((kv.2 : Int) : ℚ) * 100
    if dp > thr then
      let risk := min (50 + dp * 1.1) 95
      some { timestamp := now, etype := "INVENTORY_DISCREPANCY", sku := some kv.1,
             expected_inventory := some kv.2, actual_inventory := some actual,
             difference_percent := some dp, risk_score := round1 risk,
             severity := classify_severity_inv risk }
    else none
  else none

/-- `InventoryAlgorithms.detect_inventory_discrepancies`. -/
def detect_inventory_discrepancies (snapshot : List (String × Int))
    (rfid : List (Rec RfidData)) (pos : List (Rec PosData)) (thr : ℚ) (now : Int) :
    Except String (List Event) :=
  match adjustExpected snapshot pos with
  | .error e => .error e
  | .ok exp =>
      match tallyRfid (fun _ => 0) rfid with
      | .error e => .error e
      | .ok tally => .ok (exp.filterMap (inv_emit tally thr now))

/-- Key `(timestamp, station_id)` of the RFID index of
`track_successful_operations`. -/
def rfidKey (r : Rec RfidData) : Int × String := (r.timestamp, r.station_id)

/-- Key `(timestamp, station_id)` of the recognition index of
`track_successful_operations`. -/
def recogKey (r : Rec RecogData) : Int × String := (r.timestamp, r.station_id)

/-- Body of the `for pos in pos_events` loop of `track_successful_operations`. -/
def success_step (rfidIndex : Int × String → Option (Rec RfidData))
    (recogIndex : Int × String → Option (Rec RecogData)) (p : Rec PosData) :
    Except String (Option Event) :=
  match rfidIndex (p.timestamp, p.station_id), recogIndex (p.timestamp, p.station_id) with
  | some r, some v =>
      (match getD r.data.sku "sku" with
      | .error e => .error e
      | .ok rsku =>
          match getD v.data.predicted_product "predicted_product" with
          | .error e => .error e
          | .ok vsku =>
              match getD p.data.sku "sku" with
              | .error e => .error e
              | .ok psku =>
                  if rsku = vsku ∧ vsku = psku then
                    match getD p.data.customer_id "customer_id" with
                    | .error e => .error e
                    | .ok cid =>
                        .ok (some { timestamp := p.timestamp, etype := "SUCCESS",
                                    station_id := some p.station_id, customer_id := some cid,
                                    sku := some psku, risk_score := 5, severity := .LOW })
                  else .ok none)
  | _, _ => .ok none

/-- `InventoryAlgorithms.track_successful_operations`. -/
def track_successful_operations (pos : List (Rec PosData))
    (rfid : List (Rec RfidData)) (recogs : List (Rec RecogData)) :
    Except String (List Event) :=
  exceptFilterMap (success_step (buildIndex rfidKey rfid) (buildIndex recogKey recogs)) pos

/-- The detection thresholds the engine reads from `config.THRESHOLDS`. -/
structure Thresholds where
  weight_tolerance_percent : ℚ
  product_recognition_confidence : ℚ
  queue_length_alert : ℚ
  wait_time_alert : ℚ
  inventory_discrepancy_threshold : ℚ
  rfid_pos_time_window : Int
  station_alert_wait_threshold : ℚ
  station_alert_occurrences : Nat
  station_alert_window_minutes : Int
  high_risk_customer_events : Nat
  high_risk_customer_score : ℚ
deriving DecidableEq, Repr

/-- The values of `config.THRESHOLDS` of the Sentinel tree. -/
def defaultThresholds : Thresholds :=
  { weight_tolerance_percent := 15, product_recognition_confidence := 0.75,
    queue_length_alert := 5, wait_time_alert := 300,
    inventory_discrepancy_threshold := 10, rfid_pos_time_window := 10,
    station_alert_wait_threshold := 300, station_alert_occurrences := 3,
    station_alert_window_minutes := 15, high_risk_customer_events := 2,
    high_risk_customer_score := 80 }

/-- The input batch handed to `EventDetectionEngine`: the five streams plus the
product catalog (inventory snapshots are stream records whose payload is the
SKU → count dict). -/
structure Inputs where
  pos : List (Rec PosData)
  rfid : List (Rec RfidData)
  recog : List (Rec RecogData)
  queue : List (Rec QueueData)
  snapshots : List (Rec (List (String × Int)))
  products : List (String × Product)

/-- `EventDetectionEngine.process_all_events`: run every rule in engine order
over one immutable batch and concatenate the detections; `now` is the
wall-clock instant (read by the inventory rule), `log` is `math.log`. -/
def process_all_events (inp : Inputs) (th : Thresholds) (log : ℚ → ℚ) (now : Int) :
    Except String (List Event) := do
  let sa ← detect_scanner_avoidance inp.rfid inp.pos th.rfid_pos_time_window inp.products
  let bs ← detect_barcode_switching inp.recog inp.pos th.product_recognition_confidence inp.products
  let wd ← detect_weight_discrepancies inp.pos inp.products th.weight_tolerance_percent log
  let lq ← detect_long_queue inp.queue th.queue_length_alert
  let lw ← detect_long_wait_time inp.queue th.wait_time_alert
  let sc := detect_system_crashes inp.pos inp.recog inp.rfid inp.queue
  let sn ← recommend_staffing inp.queue th.queue_length_alert th.wait_time_alert
  let sp ← detect_station_pressure inp.queue th.queue_length_alert
    th.station_alert_wait_threshold th.station_alert_occurrences
    th.station_alert_window_minutes
  let hr ← detect_high_risk_customers (sa ++ bs ++ wd) th.high_risk_customer_events
    th.high_risk_customer_score
  let inv ← match inp.snapshots with
    | [] => Except.ok []
    | s :: _ =>
        detect_inventory_discrepancies s.data inp.rfid inp.pos
          th.inventory_discrepancy_threshold now
  let su ← track_successful_operations inp.pos inp.rfid inp.recog
  .ok (sa ++ bs ++ wd ++ lq ++ lw ++ sc ++ sn ++ sp ++ hr ++ inv ++ su)

end Sentinel

/-!
## The AgentX tree (`AgentX/TeamGmora_AgentX/src/algorithms.py`)
-/

namespace AgentX

/-- `_calculate_risk_score` (shared by `FraudDetectionAlgorithms` and
`OperationalAlgorithms`): base plus the sum of the factor-dict values, clamped
to 100 from above only. -/
def calculate_risk_score (base : ℚ) (factors : List ℚ) : ℚ :=
  min (base + factors.sum) 100

/-- `FraudDetectionAlgorithms._classify_severity` (breakpoints 80 / 60 / 40,
with a fourth tier CRITICAL). -/
def classify_severity_fraud (score : ℚ) : Sev :=
  if score ≥ 80 then .CRITICAL
  else if score ≥ 60 then .HIGH
  else if score ≥ 40 then .MEDIUM
  else .LOW

/-- `OperationalAlgorithms._classify_severity` (textually identical to the
fraud variant, a distinct method in the source). -/
def classify_severity_ops (score : ℚ) : Sev :=
  if score ≥ 80 then .CRITICAL
  else if score ≥ 60 then .HIGH
  else if score ≥ 40 then .MEDIUM
  else .LOW

/-- `InventoryAlgorithms._classify_severity` (textually identical again). -/
def classify_severity_inv (score : ℚ) : Sev :=
  if score ≥ 80 then .CRITICAL
  else if score ≥ 60 then .HIGH
  else if score ≥ 40 then .MEDIUM
  else .LOW

/-- The POS index of the AgentX `detect_scanner_avoidance`: a
`defaultdict(list)` keyed `(station_id, timestamp)` collecting the SKUs of POS
records with a truthy SKU, read back only through `.get(key, [])`. -/
def pos_index (pos : List (Rec PosData)) : String × Int → List String :=
  pos.foldl
    (fun f p =>
      match p.data.sku with
      | some s =>
          if s ≠ "" then
            (fun k => if k = (p.station_id, p.timestamp) then f k ++ [s] else f k)
          else f
      | none => f)
    ((fun _ => []) : String × Int → List String)

/-- Body of the `for rfid in rfid_events` loop of the AgentX
`detect_scanner_avoidance` (every access is `.get`, so this variant never
raises). -/
def scanner_step (idx : String × Int → List String) (W : Int)
    (catalog : List (String × Product)) (r : Rec RfidData) : Option Event :=
  match r.data.sku with
  | none => none
  | some s =>
      if s = "" ∨ r.data.location ≠ some "IN_SCAN_AREA" then none
      else if (offsetRange W).any (fun off => (idx (r.station_id, r.timestamp + off)).contains s) then
        none
      else
        let price := ((lookupP catalog s).map (fun pr => pr.price)).getD 0
        let risk := calculate_risk_score 75 [min (price / 30) 20, 5]
        some { timestamp := r.timestamp, etype := "SCANNER_AVOIDANCE",
               station_id := some r.station_id, sku := some s,
               risk_score := round1 risk, severity := classify_severity_fraud risk }

/-- The AgentX `FraudDetectionAlgorithms.detect_scanner_avoidance`. -/
def detect_scanner_avoidance (rfid : List (Rec RfidData)) (pos : List (Rec PosData))
    (W : Int) (catalog : List (String × Product)) : List Event :=
  rfid.filterMap (scanner_step (pos_index pos) W catalog)

end AgentX

/-!
## Statement-side definitions and concrete inputs
-/

/-- Modelled from the spec: the candidate offsets in increasing
absolute-offset order, ties at equal absolute value taking the negative
offset first (spec §4.1, "first offset in increasing absolute-offset order
...; ties at equal offset favor the earlier (negative-offset) timestamp").
This is the comparison definition for the windowed-join tie-break claim; the
source's loop order is `offsetRange`. -/
def specAbsOrderOffsets (W : Int) : List Int :=
  0 :: (List.range W.toNat).flatMap (fun k => [-((k : Int) + 1), (k : Int) + 1])

/-- Modelled from the spec: the first offset in increasing absolute-offset
order whose candidate timestamp has a matching target record. -/
def specAbsOrderFirstMatch (pos : List (Rec PosData)) (t : Int)
    (station sku : String) (W : Int) : Option Int :=
  (specAbsOrderOffsets W).find? (fun j => Sentinel.matchesAt pos t station sku j)

/-- Percent difference of the inventory reconciliation for one SKU:
`abs(actual − expected) / expected × 100` with the RFID tally as actual. -/
def invPct (tally : String → Int) (s : String) (e : Int) : ℚ :=
  ((|tally s - e| : Int) : ℚ) / ((e : Int) : ℚ) * 100

/-- Queue batch for the station-pressure counterexample: three samples of one
station, zero customers, dwell time 360 s. -/
def c1queue : List (Rec QueueData) :=
  [⟨0, "S1", none, ⟨some 0, some 360⟩⟩,
   ⟨60, "S1", none, ⟨some 0, some 360⟩⟩,
   ⟨120, "S1", none, ⟨some 0, some 360⟩⟩]

/-- One queue sample breaching the count threshold (witness input). -/
def c1lq : Rec QueueData := ⟨0, "S1", none, ⟨some 8, some 200⟩⟩

/-- The long-queue event the engine emits for `c1lq` at threshold 5. -/
def c1lqEvent : Event :=
  { timestamp := 0, etype := "LONG_QUEUE", station_id := some "S1",
    risk_score := 72, severity := .MEDIUM }

/-- A POS record with no `sku` key (for the missing-field claims). -/
def posNoSku : Rec PosData := ⟨0, "S1", none, { weight_g := some 300, customer_id := some "C1" }⟩

/-- POS stream for the windowed-join tie-break counterexample: matches for SKU
X at station S1 exist at offsets −10 and +1 around t = 0. -/
def c3pos : List (Rec PosData) :=
  [⟨-10, "S1", none, { sku := some "X" }⟩, ⟨1, "S1", none, { sku := some "X" }⟩]

/-- Input batch for the rerun-divergence theorem: empty streams plus one
inventory snapshot holding SKU X with count 10. -/
def c5inputs : Sentinel.Inputs :=
  { pos := [], rfid := [], recog := [], queue := [],
    snapshots := [⟨0, "SNAP", none, [("X", 10)]⟩], products := [] }

/-- First fraud event of the high-risk counterexample (risk 86). -/
def c9e1 : Event :=
  { timestamp := 0, etype := "SCANNER_AVOIDANCE", station_id := some "SCC1",
    customer_id := some "C010", risk_score := 86, severity := .HIGH }

/-- Second fraud event of the high-risk counterexample (risk 82). -/
def c9e2 : Event :=
  { timestamp := 1, etype := "BARCODE_SWITCHING", station_id := some "SCC1",
    customer_id := some "C010", risk_score := 82, severity := .MEDIUM }

/-- Vision record of the equal-key order-dependence example. -/
def c10recog : Rec RecogData :=
  ⟨0, "S1", none, { predicted_product := some "A", accuracy := some 0.95 }⟩

/-- POS record with SKU A at key (0, S1). -/
def c10p1 : Rec PosData := ⟨0, "S1", none, { sku := some "A", customer_id := some "C1" }⟩

/-- POS record with SKU B at the same key (0, S1). -/
def c10p2 : Rec PosData := ⟨0, "S1", none, { sku := some "B", customer_id := some "C1" }⟩

/-- RFID record with SKU A at key (0, S1). -/
def c10r1 : Rec RfidData := ⟨0, "S1", none, { sku := some "A" }⟩

/-- RFID record with SKU B at the same key (0, S1). -/
def c10r2 : Rec RfidData := ⟨0, "S1", none, { sku := some "B" }⟩

/-- RFID stream observing SKU X twice in the scan area (reconciliation
witness: actual count 2 matches the snapshot count 2). -/
def c8rfid : List (Rec RfidData) :=
  [⟨0, "S", none, ⟨some "X", some "IN_SCAN_AREA"⟩⟩,
   ⟨1, "S", none, ⟨some "X", some "IN_SCAN_AREA"⟩⟩]

/-!
## General lemmas
-/

@[simp]
theorem okE_ok (l : List Event) : okE (.ok l) = l := rfl

@[simp]
theorem okE_error (e : String) : okE (.error e) = [] := rfl

theorem ratFloor_eq_intFloor (q : ℚ) : Rat.floor q = ⌊q⌋ := by
  rw [Rat.floor_def', Rat.floor_def]

theorem round1_le_intCast (x : ℚ) (n : ℤ) (h : x ≤ (n : ℚ)) : round1 x ≤ (n : ℚ) := by
  unfold round1
  rw [ratFloor_eq_intFloor, div_le_iff₀ (by norm_num : (0 : ℚ) < 10)]
  have h2 : x * 10 + 1 / 2 ≤ ((10 * n : ℤ) : ℚ) + 1 / 2 := by
    push_cast
    nlinarith
  have h3 : ⌊x * 10 + 1 / 2⌋ ≤ 10 * n := by
    calc ⌊x * 10 + 1 / 2⌋ ≤ ⌊((10 * n : ℤ) : ℚ) + 1 / 2⌋ := Int.floor_le_floor h2
      _ = 10 * n + ⌊(1 / 2 : ℚ)⌋ := Int.floor_int_add _ _
      _ = 10 * n := by
          have : ⌊(1 / 2 : ℚ)⌋ = 0 := by
            rw [Int.floor_eq_iff]
            norm_num
          rw [this, add_zero]
  calc ((⌊x * 10 + 1 / 2⌋ : ℤ) : ℚ) ≤ ((10 * n : ℤ) : ℚ) := by exact_mod_cast h3
    _ = (n : ℚ) * 10 := by push_cast; ring

theorem round1_le_100 {x : ℚ} (h : x ≤ 100) : round1 x ≤ 100 := by
  have := round1_le_intCast x 100 (by exact_mod_cast h)
  exact_mod_cast this

theorem mem_okE_exceptFilterMap {α : Type} {f : α → Except String (Option Event)} :
    ∀ {l : List α} {ev : Event}, ev ∈ okE (exceptFilterMap f l) →
      ∃ x ∈ l, f x = .ok (some ev) := by
  intro l
  induction l with
  | nil => intro ev h; simp [exceptFilterMap] at h
  | cons x xs ih =>
      intro ev h
      unfold exceptFilterMap at h
      rcases hfx : f x with e | o
      · rw [hfx] at h; simp at h
      · rw [hfx] at h
        rcases hrest : exceptFilterMap f xs with e | rest
        · rw [hrest] at h; simp at h
        · rw [hrest] at h
          have hmem : ∀ hrm : ev ∈ rest, ∃ y ∈ x :: xs, f y = .ok (some ev) := by
            intro hrm
            obtain ⟨y, hy, hfy⟩ := ih (by rw [hrest]; simpa using hrm)
            exact ⟨y, List.mem_cons_of_mem _ hy, hfy⟩
          rcases o with _ | b
          · exact hmem (by simpa using h)
          · rcases (by simpa using h : ev = b ∨ ev ∈ rest) with rfl | hrm
            · exact ⟨x, List.mem_cons_self _ _, hfx⟩
            · exact hmem hrm

theorem exceptFilterMap_cons_none {α β : Type} {f : α → Except String (Option β)} {x : α}
    (xs : List α) (hf : f x = .ok none) :
    exceptFilterMap f (x :: xs) = exceptFilterMap f xs := by
  rcases h : exceptFilterMap f xs with e | rest <;>
    simp only [exceptFilterMap, hf, h]

theorem exceptFilterMap_append_error {α β : Type} {f : α → Except String (Option β)}
    {x : α} {msg0 : String} (pre post : List α) (hf : f x = .error msg0) :
    ∃ msg, exceptFilterMap f (pre ++ x :: post) = .error msg := by
  induction pre with
  | nil => exact ⟨msg0, by simp [exceptFilterMap, hf]⟩
  | cons y ys ih =>
      obtain ⟨m, hm⟩ := ih
      rcases hfy : f y with e | o
      · exact ⟨e, by simp [exceptFilterMap, hfy]⟩
      · exact ⟨m, by simp [exceptFilterMap, hfy, hm]⟩

/-!
## Claim C2 — missing required payload fields
-/

/-- C2 counterexample: a single POS record lacking the `sku` key makes
`detect_weight_discrepancies` raise `KeyError` instead of silently excluding
the record, refuting "no rule raises" as stated. -/
theorem C2_counterexample :
    Sentinel.detect_weight_discrepancies [posNoSku] [] 15 (fun _ => 0) =
      .error "KeyError: sku" := rfl

/-- C2 (amended): an RFID record with no `sku` is silently excluded from
scanner-avoidance consideration (the rule's result is unchanged by dropping
the record); but a POS record with no `sku` is not excluded — the
weight-discrepancy rule raises a `KeyError` on it wherever it sits in the
batch, and the engine installs no handler, so the pass aborts. -/
theorem C2_amended :
    (∀ (r : Rec RfidData) (rest : List (Rec RfidData)) (pos : List (Rec PosData))
       (W : Int) (catalog : List (String × Product)), r.data.sku = none →
       Sentinel.detect_scanner_avoidance (r :: rest) pos W catalog =
         Sentinel.detect_scanner_avoidance rest pos W catalog) ∧
    (∀ (pre : List (Rec PosData)) (p : Rec PosData) (post : List (Rec PosData))
       (catalog : List (String × Product)) (tol : ℚ) (log : ℚ → ℚ), p.data.sku = none →
       ∃ msg, Sentinel.detect_weight_discrepancies (pre ++ p :: post) catalog tol log =
         .error msg) := by
  constructor
  · intro r rest pos W catalog h
    exact exceptFilterMap_cons_none rest (by simp [Sentinel.scanner_step, h])
  · intro pre p post catalog tol log h
    exact exceptFilterMap_append_error pre post
      (by simp [Sentinel.weight_step, getD, h] : Sentinel.weight_step catalog tol log p = .error "KeyError: sku")

/-- C2 witness: the amended claim applied at concrete inputs. -/
theorem C2_witness :
    (Sentinel.detect_scanner_avoidance [⟨0, "S1", none, {}⟩] [] 10 [] =
      Sentinel.detect_scanner_avoidance [] [] 10 []) ∧
    (∃ msg, Sentinel.detect_weight_discrepancies [posNoSku] [] 15 (fun _ => 0) = .error msg) :=
  ⟨C2_amended.1 ⟨0, "S1", none, {}⟩ [] [] 10 [] rfl,
   C2_amended.2 [] posNoSku [] [] 15 (fun _ => 0) rfl⟩

/-!
## Claim C6 — monotone severity classification
-/

/-- C6 counterexample: the AgentX severity variant maps score 90 to CRITICAL,
a tier outside the claim's ordinal scale LOW < MEDIUM < HIGH, so the claim as
stated (severities compared in that three-tier order, "for every variant") is
false for this variant. -/
theorem C6_counterexample :
    AgentX.classify_severity_fraud 90 = Sev.CRITICAL ∧
    Sev.CRITICAL ≠ Sev.LOW ∧ Sev.CRITICAL ≠ Sev.MEDIUM ∧ Sev.CRITICAL ≠ Sev.HIGH := by
  refine ⟨?_, by decide, by decide, by decide⟩
  norm_num [AgentX.classify_severity_fraud]

/-- C6 (amended): every severity-mapping variant present in the source is
monotone in the extended ordinal order LOW < MEDIUM < HIGH < CRITICAL (rank 0,
1, 2, 3); the two Sentinel variants use only LOW/MEDIUM/HIGH, the AgentX
variant adds CRITICAL above HIGH for scores ≥ 80. -/
theorem C6_amended : ∀ s1 s2 : ℚ, s1 < s2 →
    (Sentinel.classify_severity_fraud s1).rank ≤ (Sentinel.classify_severity_fraud s2).rank ∧
    (Sentinel.classify_severity_ops s1).rank ≤ (Sentinel.classify_severity_ops s2).rank ∧
    (Sentinel.classify_severity_inv s1).rank ≤ (Sentinel.classify_severity_inv s2).rank ∧
    (AgentX.classify_severity_fraud s1).rank ≤ (AgentX.classify_severity_fraud s2).rank ∧
    (AgentX.classify_severity_ops s1).rank ≤ (AgentX.classify_severity_ops s2).rank ∧
    (AgentX.classify_severity_inv s1).rank ≤ (AgentX.classify_severity_inv s2).rank := by
  intro s1 s2 h
  refine ⟨?_, ?_, ?_, ?_, ?_, ?_⟩
  · unfold Sentinel.classify_severity_fraud
    split_ifs <;> simp_all [Sev.rank] <;> linarith
  · unfold Sentinel.classify_severity_ops
    split_ifs <;> simp_all [Sev.rank] <;> linarith
  · unfold Sentinel.classify_severity_inv
    split_ifs <;> simp_all [Sev.rank] <;> linarith
  · unfold AgentX.classify_severity_fraud
    split_ifs <;> simp_all [Sev.rank] <;> linarith
  · unfold AgentX.classify_severity_ops
    split_ifs <;> simp_all [Sev.rank] <;> linarith
  · unfold AgentX.classify_severity_inv
    split_ifs <;> simp_all [Sev.rank] <;> linarith

/-- C6 witness: the amended monotonicity applied at scores 50 < 90. -/
theorem C6_witness :
    (Sentinel.classify_severity_fraud 50).rank ≤ (Sentinel.classify_severity_fraud 90).rank ∧
    (Sentinel.classify_severity_ops 50).rank ≤ (Sentinel.classify_severity_ops 90).rank ∧
    (Sentinel.classify_severity_inv 50).rank ≤ (Sentinel.classify_severity_inv 90).rank ∧
    (AgentX.classify_severity_fraud 50).rank ≤ (AgentX.classify_severity_fraud 90).rank ∧
    (AgentX.classify_severity_ops 50).rank ≤ (AgentX.classify_severity_ops 90).rank ∧
    (AgentX.classify_severity_inv 50).rank ≤ (AgentX.classify_severity_inv 90).rank :=
  C6_amended 50 90 (by norm_num)

/-!
## Windowed-join lemmas (claims C3 and C4)
-/

theorem scanBucket_true {station sku : String} :
    ∀ {l : List (Rec PosData)}, Sentinel.scanBucket station sku l = .ok true →
      l.any (fun p => p.data.sku == some sku && p.station_id == station) = true := by
  intro l
  induction l with
  | nil => intro h; simp [Sentinel.scanBucket] at h
  | cons p ps ih =>
      intro h
      unfold Sentinel.scanBucket at h
      rcases hs : p.data.sku with _ | s
      · rw [hs] at h; simp [getD] at h
      · rw [hs] at h
        simp only [getD] at h
        split_ifs at h with hc
        · simp [List.any_cons, hs, hc.1, hc.2]
        · simp [List.any_cons, ih h]

theorem scanBucket_false {station sku : String} :
    ∀ {l : List (Rec PosData)}, Sentinel.scanBucket station sku l = .ok false →
      l.any (fun p => p.data.sku == some sku && p.station_id == station) = false := by
  intro l
  induction l with
  | nil => intro _; rfl
  | cons p ps ih =>
      intro h
      unfold Sentinel.scanBucket at h
      rcases hs : p.data.sku with _ | s
      · rw [hs] at h; simp [getD] at h
      · rw [hs] at h
        simp only [getD] at h
        split_ifs at h with hc
        · simp at h
        · push_neg at hc
          simp only [List.any_cons, Bool.or_eq_false_iff]
          refine ⟨?_, ih h⟩
          simp only [hs, Bool.and_eq_false_iff]
          by_cases hq : s = sku
          · exact Or.inr (by simp [hc hq])
          · exact Or.inl (by simp [hq])

theorem scanOffsets_none {pos : List (Rec PosData)} {t : Int} {station sku : String} :
    ∀ {l : List Int},
      (∀ j ∈ l, Sentinel.scanBucket station sku (Sentinel.posAt pos (t + j)) = .ok false) →
      Sentinel.scanOffsets pos t station sku l = .ok none := by
  intro l
  induction l with
  | nil => intro _; rfl
  | cons off rest ih =>
      intro h
      unfold Sentinel.scanOffsets
      rw [h off (List.mem_cons_self _ _)]
      simpa using ih (fun j hj => h j (List.mem_cons_of_mem _ hj))

theorem scanOffsets_unique {pos : List (Rec PosData)} {t : Int} {station sku : String} :
    ∀ {l : List Int} {k : Int}, k ∈ l →
      Sentinel.scanBucket station sku (Sentinel.posAt pos (t + k)) = .ok true →
      (∀ j ∈ l, j ≠ k → Sentinel.scanBucket station sku (Sentinel.posAt pos (t + j)) = .ok false) →
      Sentinel.scanOffsets pos t station sku l = .ok (some k) := by
  intro l
  induction l with
  | nil => intro k hk; exact absurd hk (List.not_mem_nil _)
  | cons off rest ih =>
      intro k hk htrue hfalse
      unfold Sentinel.scanOffsets
      by_cases hoff : off = k
      · subst hoff
        rw [htrue]
        simp
      · rw [hfalse off (List.mem_cons_self _ _) hoff]
        have hk' : k ∈ rest := by
          rcases List.mem_cons.mp hk with h | h
          · exact absurd h.symm hoff
          · exact h
        simpa using ih hk' htrue (fun j hj hjk => hfalse j (List.mem_cons_of_mem _ hj) hjk)

theorem scanOffsets_some_min {pos : List (Rec PosData)} {t : Int} {station sku : String} :
    ∀ {l : List Int} {k : Int}, List.Pairwise (· < ·) l →
      Sentinel.scanOffsets pos t station sku l = .ok (some k) →
      Sentinel.matchesAt pos t station sku k = true ∧
        ∀ j ∈ l, j < k → Sentinel.matchesAt pos t station sku j = false := by
  intro l
  induction l with
  | nil => intro k _ h; simp [Sentinel.scanOffsets] at h
  | cons off rest ih =>
      intro k hp h
      unfold Sentinel.scanOffsets at h
      rcases hb : Sentinel.scanBucket station sku (Sentinel.posAt pos (t + off)) with e | b
      · rw [hb] at h; simp at h
      · rw [hb] at h
        rcases b with _ | _
        · simp only [if_neg Bool.false_ne_true] at h
          obtain ⟨h1, h2⟩ := ih hp.of_cons h
          refine ⟨h1, ?_⟩
          intro j hj hjk
          rcases List.mem_cons.mp hj with rfl | hj'
          · exact scanBucket_false hb
          · exact h2 j hj' hjk
        · simp only [if_pos rfl] at h
          obtain rfl : off = k := by simpa using h
          refine ⟨scanBucket_true hb, ?_⟩
          intro j hj hjk
          rcases List.mem_cons.mp hj with rfl | hj'
          · exact absurd hjk (lt_irrefl _)
          · exact absurd hjk (not_lt.mpr (le_of_lt ((List.pairwise_cons.mp hp).1 j hj')))

theorem mem_offsetRange {W j : Int} : j ∈ offsetRange W ↔ -W ≤ j ∧ j ≤ W := by
  unfold offsetRange
  rw [List.mem_map]
  constructor
  · rintro ⟨i, hi, rfl⟩
    rw [List.mem_range] at hi
    have hi' : (i : Int) < 2 * W + 1 := Int.lt_toNat.mp hi
    omega
  · rintro ⟨h1, h2⟩
    refine ⟨(j + W).toNat, ?_, ?_⟩
    · rw [List.mem_range]
      exact Int.lt_toNat.mpr (by omega)
    · have h3 : ((j + W).toNat : Int) = j + W := Int.toNat_of_nonneg (by omega)
      omega

theorem offsetRange_pairwise (W : Int) : List.Pairwise (· < ·) (offsetRange W) := by
  unfold offsetRange
  rw [List.pairwise_map]
  exact (List.pairwise_lt_range _).imp (fun hab => by omega)

/-!
## Claim C3 — windowed-join tie-break order
-/

/-- C3 counterexample: with matches at offsets −10 and +1 around t = 0 the
loop reports the match at −10 (the first offset in increasing signed order),
while the claimed increasing absolute-offset order would report +1; so the
"first offset in increasing absolute-offset order" part of the claim is false
on the code. -/
theorem C3_counterexample :
    Sentinel.scanWindow c3pos 0 "S1" "X" 10 = .ok (some (-10)) ∧
    specAbsOrderFirstMatch c3pos 0 "S1" "X" 10 = some 1 ∧
    ¬((-10 : Int) = 1) := ⟨rfl, rfl, by decide⟩

/-- C3 (amended): the match reported by the windowed join is the first offset
in increasing signed order −W, −W+1, …, W−1, W that matches: whenever the scan
returns offset `k`, a record matches at `k` and no candidate offset smaller
than `k` matches.  In particular, when the offsets −k and +k both match, the
earlier (negative-offset) timestamp is the one matched, as the claim's
tie-break sentence says. -/
theorem C3_amended : ∀ (pos : List (Rec PosData)) (t : Int) (station sku : String)
    (W k : Int),
    Sentinel.scanWindow pos t station sku W = .ok (some k) →
    Sentinel.matchesAt pos t station sku k = true ∧
      ∀ j ∈ offsetRange W, j < k → Sentinel.matchesAt pos t station sku j = false := by
  intro pos t station sku W k h
  exact scanOffsets_some_min (offsetRange_pairwise W) h

/-- C3 witness: the amended claim applied to the concrete two-match stream. -/
theorem C3_witness :
    Sentinel.matchesAt c3pos 0 "S1" "X" (-10) = true ∧
      ∀ j ∈ offsetRange 10, j < -10 → Sentinel.matchesAt c3pos 0 "S1" "X" j = false :=
  C3_amended c3pos 0 "S1" "X" 10 (-10) rfl

theorem scanner_step_inv {pos : List (Rec PosData)} {W : Int}
    {catalog : List (String × Product)} {r : Rec RfidData} {ev : Event}
    (h : Sentinel.scanner_step pos W catalog r = .ok (some ev)) :
    ev.etype = "SCANNER_AVOIDANCE" ∧ ev.station_id = some r.station_id ∧
      ev.sku = r.data.sku ∧ ev.timestamp = r.timestamp ∧ ev.risk_score ≤ 100 := by
  unfold Sentinel.scanner_step at h
  rcases hs : r.data.sku with _ | s
  · rw [hs] at h; simp at h
  · simp only [hs] at h
    split_ifs at h with hc
    · simp at h
    · rcases hw : Sentinel.scanWindow pos r.timestamp r.station_id s W with e | fo
      · rw [hw] at h; simp at h
      · rw [hw] at h
        rcases fo with _ | k
        · simp only [Except.ok.injEq, Option.some.injEq] at h
          subst h
          exact ⟨rfl, rfl, rfl, rfl, round1_le_100 (min_le_right _ _)⟩
        · simp at h

theorem posAt_single (p : Rec PosData) (u : Int) :
    Sentinel.posAt [p] u = if p.timestamp = u then [p] else [] := by
  by_cases h : p.timestamp = u <;> simp [Sentinel.posAt, h]

theorem scanner_step_found {pos : List (Rec PosData)} {W : Int}
    {c : List (String × Product)} {T k : Int} {station sku : String}
    (hsku : sku ≠ "")
    (hwindow : Sentinel.scanWindow pos T station sku W = .ok (some k)) :
    Sentinel.scanner_step pos W c
      ⟨T, station, none, { sku := some sku, location := some "IN_SCAN_AREA" }⟩ = .ok none := by
  simp only [Sentinel.scanner_step]
  rw [if_neg (by simp [hsku]), hwindow]

theorem scanner_step_notfound {pos : List (Rec PosData)} {W : Int}
    {c : List (String × Product)} {T : Int} {station sku : String}
    (hsku : sku ≠ "")
    (hwindow : Sentinel.scanWindow pos T station sku W = .ok none) :
    ∃ ev, Sentinel.scanner_step pos W c
      ⟨T, station, none, { sku := some sku, location := some "IN_SCAN_AREA" }⟩ =
        .ok (some ev) := by
  simp only [Sentinel.scanner_step]
  rw [if_neg (by simp [hsku]), hwindow]
  exact ⟨_, rfl⟩

/-!
## Claim C4 — inclusive window boundaries
-/

/-- C4: the scanner-avoidance window is inclusive at both ends with
integer-second granularity.  For an in-scan-area RFID event at time `T` with
window `W ≥ 0` and a nonempty SKU: a sole matching POS record at exactly
`T + W` (or `T − W`) is found, so no SCANNER_AVOIDANCE event is emitted; a
sole matching POS record at `T + W + 1` is not found, so one
SCANNER_AVOIDANCE event for that station and SKU is emitted. -/
theorem C4_window_inclusive :
    ∀ (T W : Int) (station sku cid : String) (w : ℚ) (catalog : List (String × Product)),
      0 ≤ W → sku ≠ "" →
      (Sentinel.detect_scanner_avoidance
          [⟨T, station, none, { sku := some sku, location := some "IN_SCAN_AREA" }⟩]
          [⟨T + W, station, none, { sku := some sku, weight_g := some w, customer_id := some cid }⟩]
          W catalog = .ok []) ∧
      (Sentinel.detect_scanner_avoidance
          [⟨T, station, none, { sku := some sku, location := some "IN_SCAN_AREA" }⟩]
          [⟨T - W, station, none, { sku := some sku, weight_g := some w, customer_id := some cid }⟩]
          W catalog = .ok []) ∧
      (∃ ev, Sentinel.detect_scanner_avoidance
          [⟨T, station, none, { sku := some sku, location := some "IN_SCAN_AREA" }⟩]
          [⟨T + W + 1, station, none, { sku := some sku, weight_g := some w, customer_id := some cid }⟩]
          W catalog = .ok [ev] ∧
        ev.etype = "SCANNER_AVOIDANCE" ∧ ev.sku = some sku ∧ ev.station_id = some station) := by
  intro T W station sku cid w catalog hW hsku
  have hbucket_hit : ∀ u : Int,
      Sentinel.scanBucket station sku
        [⟨u, station, none, { sku := some sku, weight_g := some w, customer_id := some cid }⟩] = .ok true := by
    intro u
    simp [Sentinel.scanBucket, getD]
  refine ⟨?_, ?_, ?_⟩
  · -- match at T + W : found at offset W, nothing emitted
    have hwindow : Sentinel.scanWindow
        [⟨T + W, station, none, { sku := some sku, weight_g := some w, customer_id := some cid }⟩]
        T station sku W = .ok (some W) := by
      apply scanOffsets_unique (mem_offsetRange.mpr ⟨by omega, le_refl W⟩)
      · rw [posAt_single, if_pos rfl]
        exact hbucket_hit _
      · intro j hj hjW
        rw [posAt_single, if_neg (by omega : ¬(T + W = T + j))]
        rfl
    have hstep := scanner_step_found (c := catalog) hsku hwindow
    simp [Sentinel.detect_scanner_avoidance, exceptFilterMap, hstep]
  · -- match at T − W : found at offset −W, nothing emitted
    have hwindow : Sentinel.scanWindow
        [⟨T - W, station, none, { sku := some sku, weight_g := some w, customer_id := some cid }⟩]
        T station sku W = .ok (some (-W)) := by
      apply scanOffsets_unique (mem_offsetRange.mpr ⟨le_refl _, by omega⟩)
      · rw [posAt_single, if_pos (by omega : T - W = T + -W)]
        exact hbucket_hit _
      · intro j hj hjW
        rw [posAt_single, if_neg (by omega : ¬(T - W = T + j))]
        rfl
    have hstep := scanner_step_found (c := catalog) hsku hwindow
    simp [Sentinel.detect_scanner_avoidance, exceptFilterMap, hstep]
  · -- sole match at T + W + 1 : not found, one event emitted
    have hwindow : Sentinel.scanWindow
        [⟨T + W + 1, station, none, { sku := some sku, weight_g := some w, customer_id := some cid }⟩]
        T station sku W = .ok none := by
      apply scanOffsets_none
      intro j hj
      have hj' := mem_offsetRange.mp hj
      rw [posAt_single, if_neg (by omega : ¬(T + W + 1 = T + j))]
      rfl
    obtain ⟨ev, hev⟩ := scanner_step_notfound (c := catalog) hsku hwindow
    have hinv := scanner_step_inv hev
    exact ⟨ev, by simp [Sentinel.detect_scanner_avoidance, exceptFilterMap, hev],
      hinv.1, hinv.2.2.1, hinv.2.1⟩

/-- C4 witness: the boundary property applied at T = 0, W = 10, station S1,
SKU X. -/
theorem C4_witness :
    (Sentinel.detect_scanner_avoidance
        [⟨0, "S1", none, { sku := some "X", location := some "IN_SCAN_AREA" }⟩]
        [⟨0 + 10, "S1", none, { sku := some "X", weight_g := some 1, customer_id := some "C" }⟩]
        10 [] = .ok []) ∧
    (Sentinel.detect_scanner_avoidance
        [⟨0, "S1", none, { sku := some "X", location := some "IN_SCAN_AREA" }⟩]
        [⟨0 - 10, "S1", none, { sku := some "X", weight_g := some 1, customer_id := some "C" }⟩]
        10 [] = .ok []) ∧
    (∃ ev, Sentinel.detect_scanner_avoidance
        [⟨0, "S1", none, { sku := some "X", location := some "IN_SCAN_AREA" }⟩]
        [⟨0 + 10 + 1, "S1", none, { sku := some "X", weight_g := some 1, customer_id := some "C" }⟩]
        10 [] = .ok [ev] ∧
      ev.etype = "SCANNER_AVOIDANCE" ∧ ev.sku = some "X" ∧ ev.station_id = some "S1") :=
  C4_window_inclusive 0 10 "S1" "X" "C" 1 [] (by norm_num) (by decide)

/-!
## Claim C5 — rerun divergence of the full rule set
-/

/-- C5: running the full Sentinel rule set twice over the same immutable batch
(empty streams plus a snapshot with SKU X at count 10, default thresholds)
does NOT yield identical events: `detect_inventory_discrepancies` stamps each
INVENTORY_DISCREPANCY with `datetime.now().isoformat()` (the `now` parameter
here), so two runs one second apart disagree on that event's timestamp. -/
theorem C5_rerun_divergence :
    (okE (Sentinel.process_all_events c5inputs Sentinel.defaultThresholds (fun _ => 0) 0)).map
        Event.timestamp = [0] ∧
    (okE (Sentinel.process_all_events c5inputs Sentinel.defaultThresholds (fun _ => 0) 1)).map
        Event.timestamp = [1] ∧
    okE (Sentinel.process_all_events c5inputs Sentinel.defaultThresholds (fun _ => 0) 0) ≠
      okE (Sentinel.process_all_events c5inputs Sentinel.defaultThresholds (fun _ => 0) 1) := by
  refine ⟨?_, ?_, ?_⟩ <;> with_unfolding_all decide

/-!
## Grouping lemmas and claim C9 — High-Risk Customer aggregation
-/

theorem mem_dedupFirst {α : Type} [DecidableEq α] :
    ∀ {l : List α} {a : α}, a ∈ dedupFirst l ↔ a ∈ l := by
  intro l
  induction l with
  | nil => intro a; simp [dedupFirst]
  | cons x xs ih =>
      intro a
      simp only [dedupFirst, List.mem_cons, List.mem_filter, ih]
      by_cases hax : a = x <;> simp [hax]

theorem customerKey_eq_some {e : Event} {c : String} :
    Sentinel.customerKey e = some c ↔ e.customer_id = some c ∧ c ≠ "" := by
  unfold Sentinel.customerKey
  rcases h : e.customer_id with _ | c'
  · simp
  · by_cases hc : c' = ""
    · subst hc
      simp only [if_pos rfl]
      constructor
      · rintro ⟨⟩
      · rintro ⟨h1, h2⟩
        exact absurd (Option.some.inj h1).symm h2
    · simp only [if_neg hc, Option.some.injEq]
      constructor
      · rintro rfl
        exact ⟨rfl, hc⟩
      · rintro ⟨h1, _⟩
        exact h1

theorem exceptFilterMap_total {α : Type} {f : α → Except String (Option Event)} :
    ∀ {l : List α}, (∀ x ∈ l, ∃ o, f x = .ok o) →
      ∃ res, exceptFilterMap f l = .ok res ∧
        ∀ ev : Event, ev ∈ res ↔ ∃ x ∈ l, f x = .ok (some ev) := by
  intro l
  induction l with
  | nil => exact fun _ => ⟨[], rfl, by simp [exceptFilterMap]⟩
  | cons x xs ih =>
      intro h
      obtain ⟨o, ho⟩ := h x (List.mem_cons_self _ _)
      obtain ⟨res, hres, hmem⟩ := ih (fun y hy => h y (List.mem_cons_of_mem _ hy))
      rcases o with _ | b
      · refine ⟨res, by simp only [exceptFilterMap, ho, hres], ?_⟩
        intro ev
        rw [hmem ev]
        constructor
        · rintro ⟨y, hy, hfy⟩
          exact ⟨y, List.mem_cons_of_mem _ hy, hfy⟩
        · rintro ⟨y, hy, hfy⟩
          rcases List.mem_cons.mp hy with rfl | hy'
          · rw [ho] at hfy; simp at hfy
          · exact ⟨y, hy', hfy⟩
      · refine ⟨b :: res, by simp only [exceptFilterMap, ho, hres], ?_⟩
        intro ev
        constructor
        · intro hev
          rcases List.mem_cons.mp hev with rfl | hev'
          · exact ⟨x, List.mem_cons_self _ _, ho⟩
          · obtain ⟨y, hy, hfy⟩ := (hmem ev).mp hev'
            exact ⟨y, List.mem_cons_of_mem _ hy, hfy⟩
        · rintro ⟨y, hy, hfy⟩
          rcases List.mem_cons.mp hy with rfl | hy'
          · cases Option.some.inj (Except.ok.inj (ho.symm.trans hfy))
            exact List.mem_cons_self _ _
          · exact List.mem_cons_of_mem _ ((hmem ev).mpr ⟨y, hy', hfy⟩)

theorem high_risk_step_ok {events : List Event} {N : Nat} {ms : ℚ} {c : String}
    (hN : 1 ≤ N) : ∃ o, Sentinel.high_risk_step events N ms c = .ok o := by
  simp only [Sentinel.high_risk_step]
  split_ifs with h
  · exact ⟨none, rfl⟩
  · rcases hq : (Sentinel.qualifiedFor events ms c).getLast? with _ | lastQ
    · exfalso
      rw [List.getLast?_eq_none_iff] at hq
      rw [hq] at h
      simp at h
      omega
    · exact ⟨_, rfl⟩

theorem high_risk_step_some_iff {events : List Event} {N : Nat} {ms : ℚ} {c : String}
    (hN : 1 ≤ N) :
    (∃ ev, Sentinel.high_risk_step events N ms c = .ok (some ev)) ↔
      N ≤ (Sentinel.qualifiedFor events ms c).length := by
  constructor
  · rintro ⟨ev, hev⟩
    simp only [Sentinel.high_risk_step] at hev
    split_ifs at hev with h
    · simp at hev
    · omega
  · intro h
    simp only [Sentinel.high_risk_step]
    rw [if_neg (by omega)]
    rcases hq : (Sentinel.qualifiedFor events ms c).getLast? with _ | lastQ
    · exfalso
      rw [List.getLast?_eq_none_iff] at hq
      rw [hq] at h
      simp at h
      omega
    · exact ⟨_, rfl⟩

theorem high_risk_step_inv {events : List Event} {N : Nat} {ms : ℚ} {c : String}
    {ev : Event} (hev : Sentinel.high_risk_step events N ms c = .ok (some ev)) :
    ev.customer_id = some c ∧ ev.etype = "HIGH_RISK_CUSTOMER" ∧
      ev.risk_score = round1 (min
        (((Sentinel.qualifiedFor events ms c).map (fun e => e.risk_score)).sum /
            ((Sentinel.qualifiedFor events ms c).length : ℚ) +
          (((Sentinel.qualifiedFor events ms c).length : ℚ) - (N : ℚ) + 1) * 5) 100) ∧
      ev.risk_score ≤ 100 := by
  simp only [Sentinel.high_risk_step] at hev
  split_ifs at hev with h
  · simp at hev
  · rcases hq : (Sentinel.qualifiedFor events ms c).getLast? with _ | lastQ
    · rw [hq] at hev; simp at hev
    · rw [hq] at hev
      simp only [Except.ok.injEq, Option.some.injEq] at hev
      subst hev
      exact ⟨rfl, rfl, rfl, round1_le_100 (min_le_right _ _)⟩

/-- C9 counterexample: with exactly N = 2 qualifying events of scores 86 and
82, the emitted score is min(84 + (2 − 2 + 1)·5, 100) = 89, not the plain
average 84 the claim predicts for "exactly N qualifying events ... no
increment". -/
theorem C9_counterexample :
    (okE (Sentinel.detect_high_risk_customers [c9e1, c9e2] 2 80)).map Event.risk_score = [89] ∧
    ¬((89 : ℚ) = (86 + 82) / 2) := by
  constructor
  · with_unfolding_all decide
  · norm_num

/-- C9 (amended): the High-Risk Customer aggregation emits an event for a
customer exactly when at least N of their fraud events score within 10 points
of the minimum threshold (≥ threshold − 10); the emitted risk_score is the
average of the qualifying scores plus a 5-point increment per qualifying event
beyond N − 1 — that is, `min(avg + (q − N + 1)·5, 100)` for q qualifying
events, one increment already applied at exactly q = N — rounded to one
decimal. -/
theorem C9_amended : ∀ (events : List Event) (N : Nat) (ms : ℚ), 1 ≤ N →
    (∀ c : String, c ≠ "" →
      ((∃ ev ∈ okE (Sentinel.detect_high_risk_customers events N ms),
          ev.customer_id = some c) ↔
        N ≤ (Sentinel.qualifiedFor events ms c).length)) ∧
    (∀ ev ∈ okE (Sentinel.detect_high_risk_customers events N ms), ∃ c : String,
      ev.customer_id = some c ∧
      ev.risk_score = round1 (min
        (((Sentinel.qualifiedFor events ms c).map (fun e => e.risk_score)).sum /
            ((Sentinel.qualifiedFor events ms c).length : ℚ) +
          (((Sentinel.qualifiedFor events ms c).length : ℚ) - (N : ℚ) + 1) * 5) 100)) := by
  intro events N ms hN
  obtain ⟨res, hres, hmem⟩ := exceptFilterMap_total
    (f := Sentinel.high_risk_step events N ms)
    (l := dedupFirst (events.filterMap Sentinel.customerKey))
    (fun c _ => high_risk_step_ok hN)
  have hok : okE (Sentinel.detect_high_risk_customers events N ms) = res := by
    unfold Sentinel.detect_high_risk_customers
    rw [hres]
    rfl
  constructor
  · intro c hc
    constructor
    · rintro ⟨ev, hev, hcid⟩
      rw [hok] at hev
      obtain ⟨c', _, hstep⟩ := (hmem ev).mp hev
      obtain ⟨hcid', _, _, _⟩ := high_risk_step_inv hstep
      have : c' = c := Option.some.inj (hcid'.symm.trans hcid)
      subst this
      exact (high_risk_step_some_iff hN).mp ⟨ev, hstep⟩
    · intro h
      have hne : 0 < (Sentinel.qualifiedFor events ms c).length := by omega
      obtain ⟨e, he⟩ := List.exists_mem_of_length_pos hne
      have he' : e ∈ Sentinel.customerEvents events c :=
        (List.mem_filter.mp he).1
      obtain ⟨heev, hecid⟩ := List.mem_filter.mp he'
      have hcid : e.customer_id = some c := by simpa using hecid
      have hkey : c ∈ events.filterMap Sentinel.customerKey :=
        List.mem_filterMap.mpr ⟨e, heev, customerKey_eq_some.mpr ⟨hcid, hc⟩⟩
      obtain ⟨ev, hstep⟩ := (high_risk_step_some_iff hN).mpr h
      refine ⟨ev, ?_, (high_risk_step_inv hstep).1⟩
      rw [hok]
      exact (hmem ev).mpr ⟨c, mem_dedupFirst.mpr hkey, hstep⟩
  · intro ev hev
    rw [hok] at hev
    obtain ⟨c, _, hstep⟩ := (hmem ev).mp hev
    obtain ⟨h1, _, h3, _⟩ := high_risk_step_inv hstep
    exact ⟨c, h1, h3⟩

/-- C9 witness: the amended claim applied to the two-event batch of the
counterexample; customer C010 qualifies with exactly two events. -/
theorem C9_witness :
    ∃ ev ∈ okE (Sentinel.detect_high_risk_customers [c9e1, c9e2] 2 80),
      ev.customer_id = some "C010" :=
  ((C9_amended [c9e1, c9e2] 2 80 (by norm_num)).1 "C010" (by decide)).mpr
    (by with_unfolding_all decide)

/-!
## Inventory-reconciliation lemmas and claims C7, C8
-/

theorem adjustExpected_keys : ∀ (pos : List (Rec PosData)) (inv exp : List (String × Int)),
    Sentinel.adjustExpected inv pos = .ok exp → exp.map Prod.fst = inv.map Prod.fst := by
  intro pos
  induction pos with
  | nil =>
      intro inv exp h
      simp only [Sentinel.adjustExpected, Except.ok.injEq] at h
      rw [h]
  | cons p ps ih =>
      intro inv exp h
      unfold Sentinel.adjustExpected at h
      rcases hs : p.data.sku with _ | s
      · rw [hs] at h; simp [getD] at h
      · rw [hs] at h
        simp only [getD] at h
        have hkeys := ih _ _ h
        rw [hkeys]
        split_ifs with hin
        · rw [List.map_map]
          apply List.map_congr_left
          intro kv _
          simp only [Function.comp_apply]
          split_ifs <;> rfl
        · rfl

theorem nodup_key_eq {l : List (String × Int)} (hn : (l.map Prod.fst).Nodup) :
    ∀ {a : String} {b c : Int}, (a, b) ∈ l → (a, c) ∈ l → b = c := by
  induction l with
  | nil => intro a b c h; simp at h
  | cons kv rest ih =>
      intro a b c hb hc
      rw [List.map_cons, List.nodup_cons] at hn
      obtain ⟨hnotin, hn'⟩ := hn
      rcases List.mem_cons.mp hb with hb1 | hb1 <;> rcases List.mem_cons.mp hc with hc1 | hc1
      · exact (Prod.ext_iff.mp (hb1.trans hc1.symm)).2
      · exfalso
        apply hnotin
        rw [← hb1]
        exact List.mem_map.mpr ⟨(a, c), hc1, rfl⟩
      · exfalso
        apply hnotin
        rw [← hc1]
        exact List.mem_map.mpr ⟨(a, b), hb1, rfl⟩
      · exact ih hn' hb1 hc1

theorem tallyRfid_not_mem : ∀ (rfid : List (Rec RfidData)) (acc t : String → Int)
    (s : String), Sentinel.tallyRfid acc rfid = .ok t →
    (∀ r ∈ rfid, r.data.sku ≠ some s) → t s = acc s := by
  intro rfid
  induction rfid with
  | nil =>
      intro acc t s h _
      simp only [Sentinel.tallyRfid, Except.ok.injEq] at h
      rw [← h]
  | cons r rs ih =>
      intro acc t s h hnot
      unfold Sentinel.tallyRfid at h
      rcases hsku : r.data.sku with _ | s'
      · rw [hsku] at h; simp [getD] at h
      · rw [hsku] at h
        rcases hloc : r.data.location with _ | loc
        · rw [hloc] at h; simp [getD] at h
        · rw [hloc] at h
          simp only [getD] at h
          have hs' : s' ≠ s := by
            intro hss
            exact hnot r (List.mem_cons_self _ _) (by rw [hsku, hss])
          have hrec := ih _ _ s h (fun r' hr' => hnot r' (List.mem_cons_of_mem _ hr'))
          rw [hrec]
          by_cases hcond : loc = "IN_SCAN_AREA" ∨ loc = "SHELF"
          · rw [if_pos hcond]
            exact if_neg (fun hss => hs' hss.symm)
          · rw [if_neg hcond]

theorem detect_inv_eq {snapshot : List (String × Int)} {rfid : List (Rec RfidData)}
    {pos : List (Rec PosData)} {thr : ℚ} {now : Int} {exp : List (String × Int)}
    {tally : String → Int}
    (ha : Sentinel.adjustExpected snapshot pos = .ok exp)
    (ht : Sentinel.tallyRfid (fun _ => 0) rfid = .ok tally) :
    Sentinel.detect_inventory_discrepancies snapshot rfid pos thr now =
      .ok (exp.filterMap (Sentinel.inv_emit tally thr now)) := by
  unfold Sentinel.detect_inventory_discrepancies
  rw [ha, ht]

theorem inv_emit_eq_some {tally : String → Int} {thr : ℚ} {now : Int}
    {kv : String × Int} {ev : Event} (h : Sentinel.inv_emit tally thr now kv = some ev) :
    ev.sku = some kv.1 ∧ ev.timestamp = now ∧ ev.expected_inventory = some kv.2 ∧
      ev.actual_inventory = some (tally kv.1) ∧
      ev.risk_score = round1 (min (50 + invPct tally kv.1 kv.2 * 1.1) 95) ∧
      0 < kv.2 ∧ invPct tally kv.1 kv.2 > thr ∧ ev.risk_score ≤ 95 := by
  simp only [Sentinel.inv_emit] at h
  split_ifs at h with h1 h2
  · injection h with h
    subst h
    exact ⟨rfl, rfl, rfl, rfl, rfl, h1, h2, round1_le_intCast _ 95 (min_le_right _ _)⟩

theorem inv_emit_of_pos {tally : String → Int} {thr : ℚ} {now : Int}
    {p : String × Int} (h1 : 0 < p.2) (h2 : invPct tally p.1 p.2 > thr) :
    ∃ ev, Sentinel.inv_emit tally thr now p = some ev ∧ ev.sku = some p.1 := by
  unfold invPct at h2
  simp only [Sentinel.inv_emit]
  rw [if_pos h1, if_pos h2]
  exact ⟨_, rfl, rfl⟩

/-- C7: inventory reconciliation.  Under distinct snapshot SKUs and with the
POS replay and RFID tally completing (their `Except` results given as
hypotheses), (i) a SKU no RFID record carries is tallied as actual count 0,
and (ii) for every entry (s, e) of the POS-adjusted snapshot, an
INVENTORY_DISCREPANCY for s is emitted exactly when e > 0 and
|actual − e| / e × 100 exceeds the percent threshold (entries with e ≤ 0 are
excluded, so no division by zero arises), and any emitted event for s carries
risk_score = min(50 + percent × 1.1, 95) (rounded to one decimal), the
expected and actual counts, and the run timestamp. -/
theorem C7_inventory_reconciliation :
    ∀ (snapshot : List (String × Int)) (rfid : List (Rec RfidData))
      (pos : List (Rec PosData)) (thr : ℚ) (now : Int)
      (exp : List (String × Int)) (tally : String → Int),
      (snapshot.map Prod.fst).Nodup →
      Sentinel.adjustExpected snapshot pos = .ok exp →
      Sentinel.tallyRfid (fun _ => 0) rfid = .ok tally →
      (∀ s : String, (∀ r ∈ rfid, r.data.sku ≠ some s) → tally s = 0) ∧
      (∀ (s : String) (e : Int), (s, e) ∈ exp →
        (((∃ ev ∈ okE (Sentinel.detect_inventory_discrepancies snapshot rfid pos thr now),
            ev.sku = some s) ↔ (0 < e ∧ invPct tally s e > thr)) ∧
         (∀ ev ∈ okE (Sentinel.detect_inventory_discrepancies snapshot rfid pos thr now),
            ev.sku = some s →
            ev.risk_score = round1 (min (50 + invPct tally s e * 1.1) 95) ∧
            ev.expected_inventory = some e ∧ ev.actual_inventory = some (tally s) ∧
            ev.timestamp = now))) := by
  intro snapshot rfid pos thr now exp tally hn ha ht
  have hokE : okE (Sentinel.detect_inventory_discrepancies snapshot rfid pos thr now) =
      exp.filterMap (Sentinel.inv_emit tally thr now) := by
    rw [detect_inv_eq ha ht]
    rfl
  have hexpn : (exp.map Prod.fst).Nodup := by
    rw [adjustExpected_keys pos snapshot exp ha]
    exact hn
  refine ⟨fun s hs => tallyRfid_not_mem rfid _ tally s ht hs, ?_⟩
  intro s e hse
  constructor
  · constructor
    · rintro ⟨ev, hev, hsku⟩
      rw [hokE] at hev
      obtain ⟨kv, hkv, hemit⟩ := List.mem_filterMap.mp hev
      obtain ⟨k1, k2⟩ := kv
      obtain ⟨hevsku, _, _, _, _, hpos, hthr, _⟩ := inv_emit_eq_some hemit
      have hk1 : k1 = s := Option.some.inj (hevsku.symm.trans hsku)
      subst hk1
      have hk2 : k2 = e := nodup_key_eq hexpn hkv hse
      subst hk2
      exact ⟨hpos, hthr⟩
    · rintro ⟨h1, h2⟩
      obtain ⟨ev, hemit, hsku⟩ := inv_emit_of_pos (p := (s, e)) h1 h2
      refine ⟨ev, ?_, hsku⟩
      rw [hokE]
      exact List.mem_filterMap.mpr ⟨(s, e), hse, hemit⟩
  · intro ev hev hsku
    rw [hokE] at hev
    obtain ⟨kv, hkv, hemit⟩ := List.mem_filterMap.mp hev
    obtain ⟨k1, k2⟩ := kv
    obtain ⟨hevsku, hts, hexp, hact, hrisk, _, _, _⟩ := inv_emit_eq_some hemit
    have hk1 : k1 = s := Option.some.inj (hevsku.symm.trans hsku)
    subst hk1
    have hk2 : k2 = e := nodup_key_eq hexpn hkv hse
    subst hk2
    exact ⟨hrisk, hexp, hact, hts⟩

/-- C7 witness: reconciliation of a snapshot holding SKU X at count 10 with
empty streams — actual 0, percent 100 > 10, one discrepancy for X. -/
theorem C7_witness :
    ∃ ev ∈ okE (Sentinel.detect_inventory_discrepancies [("X", 10)] [] [] 10 0),
      ev.sku = some "X" :=
  (((C7_inventory_reconciliation [("X", 10)] [] [] 10 0 [("X", 10)] (fun _ => 0)
      (by decide) rfl rfl).2 "X" 10 (by decide)).1).mpr
    ⟨by norm_num, by with_unfolding_all decide⟩

/-- C8: when the RFID actual count equals the POS-adjusted expected count for
every SKU of the adjusted snapshot (POS sales exactly match RFID-observed
stock) and the percent threshold is nonnegative, inventory reconciliation
emits no INVENTORY_DISCREPANCY event. -/
theorem C8_reconciliation_consistency :
    ∀ (snapshot : List (String × Int)) (rfid : List (Rec RfidData))
      (pos : List (Rec PosData)) (thr : ℚ) (now : Int)
      (exp : List (String × Int)) (tally : String → Int),
      Sentinel.adjustExpected snapshot pos = .ok exp →
      Sentinel.tallyRfid (fun _ => 0) rfid = .ok tally →
      (∀ kv ∈ exp, tally kv.1 = kv.2) →
      0 ≤ thr →
      Sentinel.detect_inventory_discrepancies snapshot rfid pos thr now = .ok [] := by
  intro snapshot rfid pos thr now exp tally ha ht heq hthr
  rw [detect_inv_eq ha ht]
  congr 1
  rw [List.filterMap_eq_nil_iff]
  intro kv hkv
  simp only [Sentinel.inv_emit]
  split_ifs with h1 h2
  · exfalso
    rw [heq kv hkv] at h2
    simp only [sub_self, abs_zero, Int.cast_zero, zero_div, zero_mul] at h2
    linarith
  · rfl
  · rfl

/-- C8 witness: snapshot X = 2, two in-scan RFID observations of X, no sales:
actual equals expected everywhere, nothing is emitted. -/
theorem C8_witness :
    Sentinel.detect_inventory_discrepancies [("X", 2)] c8rfid [] 10 0 = .ok [] :=
  C8_reconciliation_consistency [("X", 2)] c8rfid [] 10 0 [("X", 2)] _ rfl rfl
    (by with_unfolding_all decide) (by norm_num)

/-!
## Claim C10 — exact-key joins keep only the last equal-key record
-/

theorem buildIndex_go {α κ : Type} [DecidableEq κ] (key : α → κ) :
    ∀ (l : List α) (f : κ → Option α) (k : κ),
      (l.foldl (fun g x => fun v => if v = key x then some x else g v) f) k =
        (match (l.filter (fun x => decide (key x = k))).getLast? with
          | some y => some y
          | none => f k) := by
  intro l
  induction l with
  | nil => intro f k; rfl
  | cons x xs ih =>
      intro f k
      rw [List.foldl_cons, ih]
      by_cases hk : key x = k
      · rw [show List.filter (fun y => decide (key y = k)) (x :: xs) =
            x :: List.filter (fun y => decide (key y = k)) xs from
            List.filter_cons_of_pos (by simpa using hk)]
        rcases hfx : (xs.filter (fun y => decide (key y = k))).getLast? with _ | y
        · have hnil := List.getLast?_eq_none_iff.mp hfx
          rw [hnil]
          simp only [List.getLast?_singleton]
          rw [if_pos hk.symm]
        · have hlast : (x :: xs.filter (fun y => decide (key y = k))).getLast? = some y := by
            rcases hcons : xs.filter (fun y => decide (key y = k)) with _ | ⟨z, zs⟩
            · rw [hcons] at hfx; simp at hfx
            · have hfx' := hfx
              rw [hcons] at hfx'
              rw [List.getLast?_cons_cons]
              exact hfx'
          rw [hlast]
      · rw [show List.filter (fun y => decide (key y = k)) (x :: xs) =
            List.filter (fun y => decide (key y = k)) xs from
            List.filter_cons_of_neg (by simpa using hk)]
        have hk' : ¬ k = key x := fun heq => hk heq.symm
        rcases hfx : (xs.filter (fun y => decide (key y = k))).getLast? with _ | y
        · rw [if_neg hk']
        · rfl

theorem buildIndex_eq {α κ : Type} [DecidableEq κ] (key : α → κ) (l : List α) (k : κ) :
    buildIndex key l k = (l.filter (fun x => decide (key x = k))).getLast? := by
  unfold buildIndex
  rw [buildIndex_go]
  rcases h : (l.filter (fun x => decide (key x = k))).getLast? with _ | y <;> rfl

/-- C10: the exact-key indexes of barcode switching (POS by (timestamp,
station)) and of multi-source success tracking (RFID and recognition by
(timestamp, station)) are built by plain dict assignment, so a lookup returns
the LAST record with that key in input order (earlier equal-key records are
never consulted); consequently the detections of these two rules change when
two equal-key records swap places, as the two concrete swaps show. -/
theorem C10_exact_key_join_last_wins :
    (∀ (l : List (Rec PosData)) (k : Int × String),
      buildIndex Sentinel.posKey l k =
        (l.filter (fun x => decide (Sentinel.posKey x = k))).getLast?) ∧
    (∀ (l : List (Rec RfidData)) (k : Int × String),
      buildIndex Sentinel.rfidKey l k =
        (l.filter (fun x => decide (Sentinel.rfidKey x = k))).getLast?) ∧
    (∀ (l : List (Rec RecogData)) (k : Int × String),
      buildIndex Sentinel.recogKey l k =
        (l.filter (fun x => decide (Sentinel.recogKey x = k))).getLast?) ∧
    okE (Sentinel.detect_barcode_switching [c10recog] [c10p1, c10p2] 0.75 []) ≠
      okE (Sentinel.detect_barcode_switching [c10recog] [c10p2, c10p1] 0.75 []) ∧
    okE (Sentinel.track_successful_operations [c10p1] [c10r1, c10r2] [c10recog]) ≠
      okE (Sentinel.track_successful_operations [c10p1] [c10r2, c10r1] [c10recog]) := by
  refine ⟨fun l k => buildIndex_eq _ l k, fun l k => buildIndex_eq _ l k,
    fun l k => buildIndex_eq _ l k, ?_, ?_⟩
  · with_unfolding_all decide
  · with_unfolding_all decide

/-!
## Risk-score upper-bound lemmas (claim C1)
-/

theorem rule_risk_of_step {α : Type} {f : α → Except String (Option Event)}
    {l : List α} {ev : Event}
    (hstep : ∀ x ev', f x = .ok (some ev') → ev'.risk_score ≤ 100)
    (h : ev ∈ okE (exceptFilterMap f l)) : ev.risk_score ≤ 100 := by
  obtain ⟨x, _, hfx⟩ := mem_okE_exceptFilterMap h
  exact hstep x ev hfx

theorem barcode_step_risk {idx : Int × String → Option (Rec PosData)} {thr : ℚ}
    {catalog : List (String × Product)} {recog : Rec RecogData} {ev : Event}
    (h : Sentinel.barcode_step idx thr catalog recog = .ok (some ev)) :
    ev.risk_score ≤ 100 := by
  simp only [Sentinel.barcode_step, getD] at h
  repeat' split at h
  all_goals first
    | exact Except.noConfusion h
    | exact Option.noConfusion (Except.ok.inj h)
    | (obtain rfl := Option.some.inj (Except.ok.inj h)
       exact round1_le_100 (le_trans (min_le_right _ _) (by norm_num)))

theorem weight_step_risk {catalog : List (String × Product)} {tol : ℚ} {log : ℚ → ℚ}
    {p : Rec PosData} {ev : Event}
    (h : Sentinel.weight_step catalog tol log p = .ok (some ev)) :
    ev.risk_score ≤ 100 := by
  simp only [Sentinel.weight_step, getD] at h
  repeat' split at h
  all_goals first
    | exact Except.noConfusion h
    | exact Option.noConfusion (Except.ok.inj h)
    | (obtain rfl := Option.some.inj (Except.ok.inj h)
       exact round1_le_100 (le_trans (min_le_right _ _) (by norm_num)))

theorem long_queue_step_risk {thr : ℚ} {q : Rec QueueData} {ev : Event}
    (h : Sentinel.long_queue_step thr q = .ok (some ev)) : ev.risk_score ≤ 100 := by
  simp only [Sentinel.long_queue_step, getD] at h
  repeat' split at h
  all_goals first
    | exact Except.noConfusion h
    | exact Option.noConfusion (Except.ok.inj h)
    | (obtain rfl := Option.some.inj (Except.ok.inj h)
       exact round1_le_100 (le_trans (min_le_right _ _) (by norm_num)))

theorem long_wait_step_risk {thr : ℚ} {q : Rec QueueData} {ev : Event}
    (h : Sentinel.long_wait_step thr q = .ok (some ev)) : ev.risk_score ≤ 100 := by
  simp only [Sentinel.long_wait_step, getD] at h
  repeat' split at h
  all_goals first
    | exact Except.noConfusion h
    | exact Option.noConfusion (Except.ok.inj h)
    | (obtain rfl := Option.some.inj (Except.ok.inj h)
       exact round1_le_100 (le_trans (min_le_right _ _) (by norm_num)))

theorem staffing_step_risk {ct wt : ℚ} {q : Rec QueueData} {ev : Event}
    (h : Sentinel.staffing_step ct wt q = .ok (some ev)) : ev.risk_score ≤ 100 := by
  simp only [Sentinel.staffing_step, getD] at h
  repeat' split at h
  all_goals first
    | exact Except.noConfusion h
    | exact Option.noConfusion (Except.ok.inj h)
    | (obtain rfl := Option.some.inj (Except.ok.inj h)
       exact round1_le_100 (le_trans (min_le_right _ _) (by norm_num)))

theorem station_step_risk {queue : List (Rec QueueData)} {qt wt : ℚ} {occ : Nat}
    {wm : Int} {sid : String} {ev : Event}
    (h : Sentinel.station_step queue qt wt occ wm sid = .ok (some ev)) :
    ev.risk_score ≤ 100 := by
  simp only [Sentinel.station_step] at h
  repeat' split at h
  all_goals first
    | exact Except.noConfusion h
    | exact Option.noConfusion (Except.ok.inj h)
    | (obtain rfl := Option.some.inj (Except.ok.inj h)
       exact round1_le_100 (le_trans (min_le_right _ _) (by norm_num)))

theorem success_step_risk {ri : Int × String → Option (Rec RfidData)}
    {vi : Int × String → Option (Rec RecogData)} {p : Rec PosData} {ev : Event}
    (h : Sentinel.success_step ri vi p = .ok (some ev)) : ev.risk_score ≤ 100 := by
  simp only [Sentinel.success_step, getD] at h
  repeat' split at h
  all_goals first
    | exact Except.noConfusion h
    | exact Option.noConfusion (Except.ok.inj h)
    | (obtain rfl := Option.some.inj (Except.ok.inj h)
       norm_num)

theorem crash_risk {pos : List (Rec PosData)} {recog : List (Rec RecogData)}
    {rfid : List (Rec RfidData)} {queue : List (Rec QueueData)} {ev : Event}
    (h : ev ∈ Sentinel.detect_system_crashes pos recog rfid queue) :
    ev.risk_score ≤ 100 := by
  unfold Sentinel.detect_system_crashes at h
  obtain ⟨kv, _, rfl⟩ := List.mem_map.mp h
  exact round1_le_100 (min_le_right _ _)

theorem inventory_risk {snapshot : List (String × Int)} {rfid : List (Rec RfidData)}
    {pos : List (Rec PosData)} {thr : ℚ} {now : Int} {ev : Event}
    (h : ev ∈ okE (Sentinel.detect_inventory_discrepancies snapshot rfid pos thr now)) :
    ev.risk_score ≤ 100 := by
  unfold Sentinel.detect_inventory_discrepancies at h
  rcases ha : Sentinel.adjustExpected snapshot pos with e | exp
  · rw [ha] at h; simp at h
  · rw [ha] at h
    rcases ht : Sentinel.tallyRfid (fun _ => 0) rfid with e | tally
    · rw [ht] at h; simp at h
    · rw [ht] at h
      simp only [okE_ok] at h
      obtain ⟨kv, _, hemit⟩ := List.mem_filterMap.mp h
      have h95 := (inv_emit_eq_some hemit).2.2.2.2.2.2.2
      linarith

theorem ax_scanner_step_risk {idx : String × Int → List String} {W : Int}
    {catalog : List (String × Product)} {r : Rec RfidData} {ev : Event}
    (h : AgentX.scanner_step idx W catalog r = some ev) : ev.risk_score ≤ 100 := by
  simp only [AgentX.scanner_step] at h
  repeat' split at h
  all_goals first
    | exact Option.noConfusion h
    | (obtain rfl := Option.some.inj h
       exact round1_le_100 (min_le_right _ _))

/-!
## Claim C1 — risk-score clamping
-/

/-- C1 counterexample: the station-pressure rule clamps its score only from
above.  With queue threshold 15 (all thresholds are externally overridable,
spec §6) and three samples of zero customers but 360 s dwell, the emitted
STATION_PERFORMANCE_ALERT carries risk_score −39 < 0, so "risk_score lies in
[0, 100] for every rule and every batch" is false as stated. -/
theorem C1_counterexample :
    (okE (Sentinel.detect_station_pressure c1queue 15 300 3 15)).map Event.risk_score =
      [-39] ∧ ((-39 : ℚ) < 0) := by
  constructor
  · with_unfolding_all decide
  · norm_num

/-- C1 (amended): every Detected Event produced by any detection or
aggregation rule has risk_score ≤ 100 (every score ends in an upper clamp
before rounding); the lower bound 0 is NOT enforced by the code — scores are
clamped only from above, and e.g. the station-pressure rule can emit a
negative score.  The conjunction covers every rule of the Sentinel tree and
the cited AgentX scoring helper and scanner-avoidance rule. -/
theorem C1_amended_upper_clamp :
    (∀ (rfid : List (Rec RfidData)) (pos : List (Rec PosData)) (W : Int)
       (catalog : List (String × Product)) (ev : Event),
       ev ∈ okE (Sentinel.detect_scanner_avoidance rfid pos W catalog) →
       ev.risk_score ≤ 100) ∧
    (∀ (recogs : List (Rec RecogData)) (pos : List (Rec PosData)) (thr : ℚ)
       (catalog : List (String × Product)) (ev : Event),
       ev ∈ okE (Sentinel.detect_barcode_switching recogs pos thr catalog) →
       ev.risk_score ≤ 100) ∧
    (∀ (pos : List (Rec PosData)) (catalog : List (String × Product)) (tol : ℚ)
       (log : ℚ → ℚ) (ev : Event),
       ev ∈ okE (Sentinel.detect_weight_discrepancies pos catalog tol log) →
       ev.risk_score ≤ 100) ∧
    (∀ (queue : List (Rec QueueData)) (thr : ℚ) (ev : Event),
       ev ∈ okE (Sentinel.detect_long_queue queue thr) → ev.risk_score ≤ 100) ∧
    (∀ (queue : List (Rec QueueData)) (thr : ℚ) (ev : Event),
       ev ∈ okE (Sentinel.detect_long_wait_time queue thr) → ev.risk_score ≤ 100) ∧
    (∀ (pos : List (Rec PosData)) (recog : List (Rec RecogData))
       (rfid : List (Rec RfidData)) (queue : List (Rec QueueData)) (ev : Event),
       ev ∈ Sentinel.detect_system_crashes pos recog rfid queue → ev.risk_score ≤ 100) ∧
    (∀ (queue : List (Rec QueueData)) (ct wt : ℚ) (ev : Event),
       ev ∈ okE (Sentinel.recommend_staffing queue ct wt) → ev.risk_score ≤ 100) ∧
    (∀ (queue : List (Rec QueueData)) (qt wt : ℚ) (occ : Nat) (wm : Int) (ev : Event),
       ev ∈ okE (Sentinel.detect_station_pressure queue qt wt occ wm) →
       ev.risk_score ≤ 100) ∧
    (∀ (events : List Event) (N : Nat) (ms : ℚ) (ev : Event),
       ev ∈ okE (Sentinel.detect_high_risk_customers events N ms) →
       ev.risk_score ≤ 100) ∧
    (∀ (snapshot : List (String × Int)) (rfid : List (Rec RfidData))
       (pos : List (Rec PosData)) (thr : ℚ) (now : Int) (ev : Event),
       ev ∈ okE (Sentinel.detect_inventory_discrepancies snapshot rfid pos thr now) →
       ev.risk_score ≤ 100) ∧
    (∀ (pos : List (Rec PosData)) (rfid : List (Rec RfidData))
       (recogs : List (Rec RecogData)) (ev : Event),
       ev ∈ okE (Sentinel.track_successful_operations pos rfid recogs) →
       ev.risk_score ≤ 100) ∧
    (∀ (base : ℚ) (factors : List ℚ), AgentX.calculate_risk_score base factors ≤ 100) ∧
    (∀ (rfid : List (Rec RfidData)) (pos : List (Rec PosData)) (W : Int)
       (catalog : List (String × Product)) (ev : Event),
       ev ∈ AgentX.detect_scanner_avoidance rfid pos W catalog → ev.risk_score ≤ 100) := by
  refine ⟨?_, ?_, ?_, ?_, ?_, ?_, ?_, ?_, ?_, ?_, ?_, ?_, ?_⟩
  · intro rfid pos W catalog ev h
    exact rule_risk_of_step (fun x ev' hx => (scanner_step_inv hx).2.2.2.2) h
  · intro recogs pos thr catalog ev h
    exact rule_risk_of_step (fun x ev' hx => barcode_step_risk hx) h
  · intro pos catalog tol log ev h
    exact rule_risk_of_step (fun x ev' hx => weight_step_risk hx) h
  · intro queue thr ev h
    exact rule_risk_of_step (fun x ev' hx => long_queue_step_risk hx) h
  · intro queue thr ev h
    exact rule_risk_of_step (fun x ev' hx => long_wait_step_risk hx) h
  · intro pos recog rfid queue ev h
    exact crash_risk h
  · intro queue ct wt ev h
    exact rule_risk_of_step (fun x ev' hx => staffing_step_risk hx) h
  · intro queue qt wt occ wm ev h
    exact rule_risk_of_step (fun x ev' hx => station_step_risk hx) h
  · intro events N ms ev h
    exact rule_risk_of_step (fun x ev' hx => (high_risk_step_inv hx).2.2.2) h
  · intro snapshot rfid pos thr now ev h
    exact inventory_risk h
  · intro pos rfid recogs ev h
    exact rule_risk_of_step (fun x ev' hx => success_step_risk hx) h
  · intro base factors
    exact min_le_right _ _
  · intro rfid pos W catalog ev h
    obtain ⟨x, _, hx⟩ := List.mem_filterMap.mp h
    exact ax_scanner_step_risk hx

/-- C1 witness: the upper clamp applied to the long-queue event emitted for a
queue of 8 at threshold 5 (risk 72). -/
theorem C1_witness : c1lqEvent.risk_score ≤ 100 :=
  C1_amended_upper_clamp.2.2.2.1 [c1lq] 5 c1lqEvent (by with_unfolding_all decide)

end CodeBlast
